import Mathlib

/-!
# Verification of the HOBBYTAN workflow-orchestration core

Shallow embedding of the orchestration core of the HOBBYTAN virtual-office
application: the plan registry (`upsertActionPlan`), the collaboration
session runner (`runCollaboration`), the generation dispatch layer
(`requestOpenAIText`, `requestAnthropicText`, `requestXAIText`,
`requestGeminiText`), the governance watcher, and the phase state machine
(`startWorkflow`).

Modelling conventions:
* JavaScript strings are Lean `String`s; `String.prototype.trim`,
  `Array.prototype.join`, `Array.prototype.slice` are embedded as
  `jsTrim`, `jsJoin`, `List.take` / `takeLast`.
* Timestamps (`new Date().toISOString()`) and generated ids (`makeId`)
  are modelled as values drawn from a monotone `clock : Nat` threaded
  through the state; equality of timestamps is what the claims inspect.
* Every awaited effect (LLM proxy call, storage upload, firestore write)
  is an oracle supplied in an `Env`; a JavaScript `throw` is an
  `Except.error`.  The single-threaded cooperative scheduling of the app
  makes each run a pure function of the environment and initial state.
-/

universe u

/-- JS whitespace test for the characters relevant to `String.prototype.trim`. -/
def isJsWs (c : Char) : Bool :=
  c = ' ' || c = '\t' || c = '\n' || c = '\r'

/-- Embedding of `String.prototype.trim()`: strip leading and trailing whitespace. -/
def jsTrim (s : String) : String :=
  ⟨((s.data.dropWhile isJsWs).reverse.dropWhile isJsWs).reverse⟩

/-- Embedding of `Array.prototype.join(sep)`. -/
def jsJoin (sep : String) : List String → String
  | [] => ""
  | [x] => x
  | x :: y :: xs => x ++ sep ++ jsJoin sep (y :: xs)

/-- Embedding of `Array.prototype.slice(-n)`: the last `n` elements (all, if fewer). -/
def takeLast {α : Type u} (n : Nat) (l : List α) : List α :=
  l.drop (l.length - n)

/-- Embedding of `Array.from(new Set(l))`: deduplicate keeping first occurrences. -/
def dedupFirst : List String → List String
  | [] => []
  | x :: xs => x :: dedupFirst (xs.filter (fun y => y ≠ x))
  termination_by l => l.length
  decreasing_by
    simp only [List.length_cons]
    exact Nat.lt_succ_of_le (List.length_filter_le _ _)

/-- ASCII uppercase of one character (embedding of `toUpperCase` on ASCII; other
characters, including Hangul, are unaffected). -/
def asciiUpperChar (c : Char) : Char :=
  if 'a' ≤ c ∧ c ≤ 'z' then Char.ofNat (c.toNat - 32) else c

/-- Embedding of `String.prototype.toUpperCase()` (ASCII range). -/
def asciiUpper (s : String) : String :=
  ⟨s.data.map asciiUpperChar⟩

/-- ASCII lowercase of one character (embedding of `toLowerCase` / the `/i` regex
flag on ASCII). -/
def asciiLowerChar (c : Char) : Char :=
  if 'A' ≤ c ∧ c ≤ 'Z' then Char.ofNat (c.toNat + 32) else c

/-- Embedding of `String.prototype.toLowerCase()` (ASCII range). -/
def asciiLower (s : String) : String :=
  ⟨s.data.map asciiLowerChar⟩

/-- `t` occurs as a contiguous substring of `s`. -/
def strContains (s t : String) : Prop :=
  ∃ p q, s.data = p ++ t.data ++ q

/-- Boolean substring occurrence test (used to embed regex literal tests). -/
def strContainsB (s t : String) : Bool :=
  (s.data.tails).any (fun l => t.data.isPrefixOf l)

/-! ## Static council data (src/data/council.ts)

The visual fields of `CouncilMember` (color, image, seat, callSign) feed the
out-of-scope rendering loop and are omitted from the embedding. -/
inductive LlmProvider
  | openai | anthropic | xai | gemini
  deriving DecidableEq, Repr

structure CouncilMember where
  id : String
  displayName : String
  role : String
  department : String
  identityPrompt : String
  defaultProvider : LlmProvider
  defaultModel : String
  deriving DecidableEq, Repr

def DEFAULT_OPENAI_CONVERSATION_MODEL : String := "gpt-5.2"

def DEFAULT_OPENAI_DEV_MODEL : String := "gpt-5.2-codex"

def DEFAULT_OPENAI_MODEL : String := DEFAULT_OPENAI_CONVERSATION_MODEL

def DEFAULT_ANTHROPIC_MODEL : String := "claude-3-7-sonnet-latest"

def DEFAULT_XAI_MODEL : String := "grok-4"

def DEFAULT_GEMINI_TEXT_MODEL : String := "gemini-2.5-pro"

def getDefaultModelForProvider : LlmProvider → String
  | .openai => DEFAULT_OPENAI_CONVERSATION_MODEL
  | .anthropic => DEFAULT_ANTHROPIC_MODEL
  | .xai => DEFAULT_XAI_MODEL
  | .gemini => DEFAULT_GEMINI_TEXT_MODEL

def COUNCIL_MEMBERS : List CouncilMember := [
  { id := "CEO-HOBBY", displayName := "CEO HOBBY", role := "Final Decision Maker",
    department := "Executive",
    identityPrompt := "당신은 CEO HOBBY다. 모든 산출물의 최종 수신자이며 의사결정을 내린다. 보고서는 짧고 명확해야 하며 실행 가능해야 한다.",
    defaultProvider := .openai, defaultModel := DEFAULT_OPENAI_CONVERSATION_MODEL },
  { id := "HOST-TAN", displayName := "HOST-TAN", role := "Office Host",
    department := "Operations",
    identityPrompt := "당신은 HOST-TAN이다. 오피스 로그, 의사결정 타임라인, 전달 상태를 정리한다. 빠르고 실무적으로 보고한다.",
    defaultProvider := .openai, defaultModel := DEFAULT_OPENAI_CONVERSATION_MODEL },
  { id := "ATTENDANT-TAN", displayName := "ATTENDANT-TAN", role := "DEO / Executive Attendant",
    department := "Operations",
    identityPrompt := "당신은 ATTENDANT-TAN이다. 완벽주의 집행관으로서 전 TAN을 오케스트레이션한다. 독단적으로 결정하지 말고 역할을 위임해 최적안을 만든다.",
    defaultProvider := .openai, defaultModel := DEFAULT_OPENAI_CONVERSATION_MODEL },
  { id := "PO-TAN", displayName := "PO-TAN", role := "Product Owner",
    department := "Product",
    identityPrompt := "당신은 PO-TAN이다. 비즈니스 가치와 고객 가치 기준으로 우선순위를 결정한다. 수치/가설/검증 기준을 반드시 포함한다.",
    defaultProvider := .openai, defaultModel := DEFAULT_OPENAI_CONVERSATION_MODEL },
  { id := "PM-TAN", displayName := "PM-TAN", role := "Project Manager",
    department := "Product",
    identityPrompt := "당신은 PM-TAN이다. 일정, 병목, 공정률을 관리한다. 단계 전환 조건과 마감 리스크를 명확히 제시한다.",
    defaultProvider := .openai, defaultModel := DEFAULT_OPENAI_CONVERSATION_MODEL },
  { id := "BA-TAN", displayName := "BA-TAN", role := "Business Analyst",
    department := "Strategy",
    identityPrompt := "당신은 BA-TAN이다. ROI, 전환율, 실험 지표를 숫자로 설계하고 해석한다. 팩트 기반으로 우선순위를 제안한다.",
    defaultProvider := .openai, defaultModel := DEFAULT_OPENAI_CONVERSATION_MODEL },
  { id := "DEV-TAN", displayName := "DEV-TAN", role := "Engineering Lead",
    department := "Engineering",
    identityPrompt := "당신은 DEV-TAN이다. 품질과 아키텍처 무결성을 최우선으로 둔다. 구현 계획은 모호성이 없어야 하며 테스트 전략을 포함한다. 또한 GitHub 소스와 배포 버전의 정합성을 지속 점검하고 불일치 시 즉시 복구 계획을 보고한다.",
    defaultProvider := .openai, defaultModel := DEFAULT_OPENAI_DEV_MODEL },
  { id := "QA-TAN", displayName := "QA-TAN", role := "Quality Assurance",
    department := "Engineering",
    identityPrompt := "당신은 QA-TAN이다. 테스트 시나리오, 엣지 케이스, 승인 기준을 작성한다. 출시 전 리스크를 엄격히 차단한다.",
    defaultProvider := .openai, defaultModel := DEFAULT_OPENAI_CONVERSATION_MODEL },
  { id := "UX-TAN", displayName := "UX-TAN", role := "Design Lead",
    department := "Design",
    identityPrompt := "당신은 UX-TAN이다. 미학적 완성도와 사용 흐름의 정합성을 책임진다. 1px 기준의 레이아웃 명세와 예외 케이스를 제시한다.",
    defaultProvider := .openai, defaultModel := DEFAULT_OPENAI_CONVERSATION_MODEL },
  { id := "HR-TAN", displayName := "HR-TAN", role := "People Governance",
    department := "Governance",
    identityPrompt := "당신은 HR-TAN이다. 역할 준수 여부와 팀 운영 질서를 감사한다. 인력 배치와 업무 적합도를 근거와 함께 판단한다.",
    defaultProvider := .openai, defaultModel := DEFAULT_OPENAI_CONVERSATION_MODEL },
  { id := "LEGAL-TAN", displayName := "LEGAL-TAN", role := "Legal Advisor",
    department := "Governance",
    identityPrompt := "당신은 LEGAL-TAN이다. 정책, 컴플라이언스, 데이터 보안 리스크를 선제 차단한다. 법적 문구와 승인 조건을 명시한다.",
    defaultProvider := .openai, defaultModel := DEFAULT_OPENAI_CONVERSATION_MODEL },
  { id := "MARKETING-TAN", displayName := "MARKETING-TAN", role := "Growth & Marketing",
    department := "Growth",
    identityPrompt := "당신은 MARKETING-TAN이다. 시장 흐름과 바이럴 루프 중심으로 확산 전략을 수립한다. 채널, 카피, 측정 지표를 함께 제안한다.",
    defaultProvider := .openai, defaultModel := DEFAULT_OPENAI_CONVERSATION_MODEL },
  { id := "CS-TAN", displayName := "CS-TAN", role := "Customer Success",
    department := "Growth",
    identityPrompt := "당신은 CS-TAN이다. 고객 질문, 페인포인트, 온보딩 장애물을 찾아낸다. 고객 언어로 실행 개선안을 제시한다.",
    defaultProvider := .openai, defaultModel := DEFAULT_OPENAI_CONVERSATION_MODEL },
  { id := "RESEARCHER-TAN", displayName := "RESEARCHER-TAN", role := "Market Researcher",
    department := "Strategy",
    identityPrompt := "당신은 RESEARCHER-TAN이다. 감이 아니라 데이터로 시장성을 판단한다. 근거 수치와 출처 가정, 한계점을 명시한다.",
    defaultProvider := .openai, defaultModel := DEFAULT_OPENAI_CONVERSATION_MODEL }
]

/-- Embedding of `MEMBER_BY_ID.get(memberId)` / `getMember`. -/
def getMember (memberId : String) : Option CouncilMember :=
  COUNCIL_MEMBERS.find? (fun m => m.id = memberId)

def DEFAULT_COLLABORATION_TEAM : List String :=
  ["ATTENDANT-TAN", "PO-TAN", "PM-TAN", "DEV-TAN", "UX-TAN", "QA-TAN",
   "BA-TAN", "LEGAL-TAN", "MARKETING-TAN", "CS-TAN", "RESEARCHER-TAN"]

def DEFAULT_CHAT_RECIPIENTS : List String :=
  ["ATTENDANT-TAN", "PM-TAN", "DEV-TAN", "UX-TAN"]

/-! ## Plan registry (`upsertActionPlan`, App.tsx lines 664-707) -/
inductive PlanSource
  | workflow | management | manual
  deriving DecidableEq, Repr

structure ActionPlanItem where
  id : Nat
  threadId : String
  memberId : String
  memberName : String
  plan : String
  source : PlanSource
  createdAt : Nat
  updatedAt : Nat
  lastExecutedAt : Option Nat := none
  lastExecutionSummary : Option String := none
  deriving DecidableEq, Repr

/-- The soft-unique key predicate used by the registry's `findIndex`. -/
def planKeyMatches (threadId memberId : String) (p : ActionPlanItem) : Bool :=
  p.threadId = threadId && p.memberId = memberId

/-- The overwrite branch of the upsert: replace the first record matching the
key in place (`clone[existingIndex] = { ...existing, plan, source, updatedAt }`). -/
def overwriteFirstPlan (threadId memberId planText : String) (source : PlanSource)
    (now : Nat) : List ActionPlanItem → List ActionPlanItem
  | [] => []
  | p :: ps =>
    if planKeyMatches threadId memberId p then
      { p with plan := planText, source := source, updatedAt := now } :: ps
    else
      p :: overwriteFirstPlan threadId memberId planText source now ps

/-- Embedding of `upsertActionPlan(memberId, plan, source, threadId)` acting on
the `actionPlans` list, with `now` the current clock tick (standing for both
`new Date().toISOString()` and the `makeId()` of a freshly created record).
Guard, lookup-by-key, in-place overwrite, and the `[next, ...previous].slice(0, 220)`
creation branch follow App.tsx lines 664-707. -/
def upsertActionPlan (memberId plan : String) (source : PlanSource)
    (threadId : String) (now : Nat)
    (previous : List ActionPlanItem) : List ActionPlanItem :=
  match getMember memberId with
  | none => previous
  | some member =>
    if jsTrim plan = "" then previous
    else if previous.any (planKeyMatches threadId memberId) then
      overwriteFirstPlan threadId memberId (jsTrim plan) source now previous
    else
      ({ id := now, threadId := threadId, memberId := memberId,
         memberName := member.displayName, plan := jsTrim plan, source := source,
         createdAt := now, updatedAt := now } :: previous).take 220

/-- One upsert request: the arguments of a call to `upsertActionPlan`. -/
structure UpsertOp where
  memberId : String
  plan : String
  source : PlanSource
  threadId : String
  deriving DecidableEq, Repr

/-- Apply a sequence of upserts, the clock ticking once per call. -/
def applyUpserts : List UpsertOp → Nat → List ActionPlanItem → List ActionPlanItem
  | [], _, plans => plans
  | op :: ops, clock, plans =>
    applyUpserts ops (clock + 1)
      (upsertActionPlan op.memberId op.plan op.source op.threadId clock plans)

/-- Embedding of the `markExecuted` effect of `executeActionPlan`
(App.tsx lines 2015-2026): record the execution without altering `plan`. -/
def markPlanExecuted (planId : Nat) (summary : String) (now : Nat)
    (plans : List ActionPlanItem) : List ActionPlanItem :=
  plans.map (fun item =>
    if item.id = planId then
      { item with lastExecutedAt := some now,
                  lastExecutionSummary := some ⟨summary.data.take 360⟩,
                  updatedAt := now }
    else item)

/-- The `(threadId, memberId)` key of a registry record. -/
def planKey (p : ActionPlanItem) : String × String := (p.threadId, p.memberId)

/-- Key-uniqueness invariant: no two records share a `(threadId, memberId)` key. -/
def PlansKeyUnique (plans : List ActionPlanItem) : Prop :=
  (plans.map planKey).Nodup

/-! ## The 220-record capacity bound: an eviction scenario

`upsertActionPlan` truncates the registry to 220 records on every creation
(`[next, ...previous].slice(0, 220)`).  The scenario below performs 221
creations for 221 distinct `(threadId, memberId)` keys; the oldest record is
evicted.  Thread ids are modelled as strings `"", "a", "aa", ...` so that
distinctness is provable by length. -/
def evictTid (i : Nat) : String := ⟨List.replicate i 'a'⟩

def evictOp (i : Nat) : UpsertOp :=
  { memberId := "PO-TAN", plan := "p", source := .manual, threadId := evictTid i }

/-- The ops `evictOp a, evictOp (a+1), ..., evictOp (a+k-1)` in order. -/
def evictOpsFrom (a : Nat) : Nat → List UpsertOp
  | 0 => []
  | k + 1 => evictOp a :: evictOpsFrom (a + 1) k

/-- The record created by `evictOp i` when processed at clock tick `i`. -/
def evictRec (i : Nat) : ActionPlanItem :=
  { id := i, threadId := evictTid i, memberId := "PO-TAN", memberName := "PO-TAN",
    plan := "p", source := .manual, createdAt := i, updatedAt := i }

/-- Newest-first list of the first `n` created records. -/
def evictDesc : Nat → List ActionPlanItem
  | 0 => []
  | n + 1 => evictRec n :: evictDesc n

def evictState (a : Nat) : List ActionPlanItem := (evictDesc a).take 220

/-! ## Generation dispatch backends (functions/src/index.ts)

Each `requestXText` function is embedded as a pure function of a
`DispatchEnv` holding the secrets and one network oracle per provider.
Besides the `Except`-style result it returns the list of payloads actually
sent over the network, in order, so that retry behaviour is observable.
`FetchResp.errText` stands for `JSON.stringify(await readResponseText(r))`. -/
def OPENAI_BASE : String := "https://api.openai.com/v1"

def ANTHROPIC_BASE : String := "https://api.anthropic.com/v1"

def XAI_BASE : String := "https://api.x.ai/v1"

def GEMINI_BASE : String := "https://generativelanguage.googleapis.com/v1beta"

def DISABLED_SECRET_VALUES : List String :=
  ["disabled", "missing", "not-configured", "none"]

def isConfiguredSecret (value : String) : Bool :=
  if value = "" then false
  else !(DISABLED_SECRET_VALUES.contains (asciiLower (jsTrim value)))

/-- JS `a || b` for strings coming from an optional field (empty string is falsy). -/
def jsOrOpt (o : Option String) (dflt : String) : String :=
  match o with
  | some s => if s = "" then dflt else s
  | none => dflt

/-- `value.replace(/\/+$/, "")`. -/
def trimSlash (s : String) : String :=
  ⟨(s.data.reverse.dropWhile (· = '/')).reverse⟩

structure LlmRequestBody where
  provider : Option LlmProvider := none
  model : Option String := none
  input : Option String := none
  instructions : Option String := none
  maxOutputTokens : Option Nat := none
  temperature : Option Rat := none
  baseUrl : Option String := none
  useWebSearch : Bool := false

structure FetchResp (β : Type) where
  ok : Bool
  status : Nat
  body : β
  errText : String := ""

structure OpenAIPayload where
  model : String
  input : String
  instructions : Option String := none
  max_output_tokens : Option Nat := none
  /-- whether `payload.tools = [{ type: "web_search_preview" }]` is attached -/
  tools : Bool := false
  deriving DecidableEq, Repr

structure OpenAIContent where
  type : Option String := none
  text : Option String := none

structure OpenAIOutputItem where
  content : List OpenAIContent := []

structure OpenAIResponsesPayload where
  output_text : Option String := none
  output : List OpenAIOutputItem := []

/-- Embedding of `readOpenAIText`. -/
def readOpenAIText (payload : OpenAIResponsesPayload) : String :=
  let chunks := (payload.output.map (fun item =>
    item.content.filterMap (fun c =>
      if c.type = some "output_text" || c.type = some "text" then c.text
      else none))).flatten
  match payload.output_text with
  | some s => if jsTrim s = "" then jsTrim (jsJoin "\n" chunks) else jsTrim s
  | none => jsTrim (jsJoin "\n" chunks)

structure AnthropicPayload where
  model : String
  max_tokens : Nat
  userContent : String
  system : Option String := none
  temperature : Option Rat := none
  deriving DecidableEq, Repr

structure AnthropicContentItem where
  type : Option String := none
  text : Option String := none

structure AnthropicBody where
  content : List AnthropicContentItem := []

structure XAIMessage where
  role : String
  content : String
  deriving DecidableEq, Repr

structure XAIPayload where
  model : String
  messages : List XAIMessage
  max_tokens : Option Nat := none
  temperature : Option Rat := none
  deriving DecidableEq, Repr

/-- `json.choices?.[0]?.message?.content` of an xAI response, with the whole
optional chain collapsed into `missing`. -/
inductive XAIContent
  | str (s : String)
  | arr (items : List (Option String))
  | missing

structure XAIBody where
  content : XAIContent := .missing

structure GeminiPayload where
  model : String
  promptText : String
  maxOutputTokens : Option Nat := none
  temperature : Option Rat := none
  /-- whether `payload.tools = [{ google_search: {} }]` is attached -/
  tools : Bool := false
  deriving DecidableEq, Repr

structure GeminiPart where
  text : Option String := none

structure GeminiBody where
  parts : List GeminiPart := []

structure DispatchEnv where
  openaiKey : String
  anthropicKey : String
  xaiKey : String
  geminiKey : String
  netOpenAI : String → OpenAIPayload → FetchResp OpenAIResponsesPayload
  netAnthropic : String → AnthropicPayload → FetchResp AnthropicBody
  netXAI : String → XAIPayload → FetchResp XAIBody
  netGemini : String → GeminiPayload → FetchResp GeminiBody

def openAIEndpointOf (body : LlmRequestBody) : String :=
  trimSlash (jsOrOpt body.baseUrl OPENAI_BASE) ++ "/responses"

/-- The request payload `requestOpenAIText` builds before its first call. -/
def openAIPayloadOf (body : LlmRequestBody) : OpenAIPayload :=
  { model := jsOrOpt body.model "gpt-5.2",
    input := body.input.getD "",
    instructions :=
      match body.instructions with
      | some i => if i = "" then none else some i
      | none => none,
    max_output_tokens := body.maxOutputTokens,
    tools := body.useWebSearch }

/-- Embedding of `requestOpenAIText` (functions/src/index.ts lines 139-205),
including the retry-once-without-web-search fallback. -/
def requestOpenAIText (env : DispatchEnv) (body : LlmRequestBody) :
    Except String String × List OpenAIPayload :=
  if !(isConfiguredSecret env.openaiKey) then
    (.error "OPENAI_API_KEY is not configured.", [])
  else
    let endpoint := openAIEndpointOf body
    let payload : OpenAIPayload := openAIPayloadOf body
    let finish := fun (resp : FetchResp OpenAIResponsesPayload)
        (trace : List OpenAIPayload) =>
      let text := readOpenAIText resp.body
      if text = "" then
        ((.error "OpenAI response did not contain text output."
            : Except String String), trace)
      else (.ok text, trace)
    let resp := env.netOpenAI endpoint payload
    if resp.ok then finish resp [payload]
    else if body.useWebSearch then
      -- Retry once without web search tool for models/accounts that don't support it.
      let fallbackPayload := { payload with tools := false }
      let resp2 := env.netOpenAI endpoint fallbackPayload
      if resp2.ok then finish resp2 [payload, fallbackPayload]
      else
        (.error ("OpenAI request failed (" ++ toString resp2.status ++ "): "
            ++ resp2.errText), [payload, fallbackPayload])
    else
      (.error ("OpenAI request failed (" ++ toString resp.status ++ "): "
          ++ resp.errText), [payload])

/-- `s.startsWith(t)`. -/
def jsStartsWith (s t : String) : Bool :=
  s.data.take t.data.length == t.data

/-- `base.endsWith("/messages")`. -/
def jsEndsWith (s t : String) : Bool :=
  t.data.isSuffixOf s.data

/-- Embedding of `requestAnthropicText` (lines 207-259): a single call, no retry;
the `useWebSearch` flag of the request body is never read. -/
def requestAnthropicText (env : DispatchEnv) (body : LlmRequestBody) :
    Except String String × List AnthropicPayload :=
  if !(isConfiguredSecret env.anthropicKey) then
    (.error "ANTHROPIC_API_KEY is not configured.", [])
  else
    let base := trimSlash (jsOrOpt body.baseUrl ANTHROPIC_BASE)
    let endpoint := if jsEndsWith base "/messages" then base else base ++ "/messages"
    let payload : AnthropicPayload :=
      { model := jsOrOpt body.model "claude-3-7-sonnet-latest",
        max_tokens :=
          match body.maxOutputTokens with
          | some n => if n = 0 then 1200 else n
          | none => 1200,
        userContent := body.input.getD "",
        system :=
          match body.instructions with
          | some i => if jsTrim i = "" then none else some (jsTrim i)
          | none => none,
        temperature := body.temperature }
    let resp := env.netAnthropic endpoint payload
    if !resp.ok then
      (.error ("Anthropic request failed (" ++ toString resp.status ++ "): "
          ++ resp.errText), [payload])
    else
      let text := jsTrim (jsJoin "\n" (resp.body.content.filterMap (fun item =>
        if item.type = some "text" then item.text else none)))
      if text = "" then
        (.error "Anthropic response did not contain text output.", [payload])
      else (.ok text, [payload])

/-- Embedding of `requestXAIText` (lines 261-320): a single call, no retry;
the `useWebSearch` flag of the request body is never read. -/
def requestXAIText (env : DispatchEnv) (body : LlmRequestBody) :
    Except String String × List XAIPayload :=
  if !(isConfiguredSecret env.xaiKey) then
    (.error "XAI_API_KEY is not configured.", [])
  else
    let endpoint := trimSlash (jsOrOpt body.baseUrl XAI_BASE) ++ "/chat/completions"
    let systemMessages : List XAIMessage :=
      match body.instructions with
      | some i => if jsTrim i = "" then [] else [{ role := "system", content := jsTrim i }]
      | none => []
    let payload : XAIPayload :=
      { model := jsOrOpt body.model "grok-4",
        messages := systemMessages ++ [{ role := "user", content := body.input.getD "" }],
        max_tokens := body.maxOutputTokens,
        temperature := body.temperature }
    let resp := env.netXAI endpoint payload
    if !resp.ok then
      (.error ("xAI request failed (" ++ toString resp.status ++ "): "
          ++ resp.errText), [payload])
    else
      match resp.body.content with
      | .str s =>
        if jsTrim s = "" then
          (.error "xAI response did not contain text output.", [payload])
        else (.ok (jsTrim s), [payload])
      | .arr items =>
        let text := jsTrim (jsJoin "\n" (items.map (fun o => o.getD "")))
        if text = "" then
          (.error "xAI response did not contain text output.", [payload])
        else (.ok text, [payload])
      | .missing =>
        (.error "xAI response did not contain text output.", [payload])

/-- Embedding of `requestGeminiText` (lines 322-378): the web-search tool is
attached when requested, but a failed call is surfaced immediately — there is
no retry branch. -/
def geminiEndpointOf (body : LlmRequestBody) : String :=
  trimSlash (jsOrOpt body.baseUrl GEMINI_BASE) ++ "/models/"
    ++ jsOrOpt body.model "gemini-2.5-pro" ++ ":generateContent"

/-- The single request payload `requestGeminiText` builds. -/
def geminiPayloadOf (body : LlmRequestBody) : GeminiPayload :=
  { model := jsOrOpt body.model "gemini-2.5-pro",
    promptText :=
      match body.instructions with
      | some i =>
        if jsTrim i = "" then body.input.getD ""
        else jsJoin "\n\n" ["System instruction:\n" ++ jsTrim i, body.input.getD ""]
      | none => body.input.getD "",
    maxOutputTokens := body.maxOutputTokens,
    temperature := body.temperature,
    tools := body.useWebSearch }

def requestGeminiText (env : DispatchEnv) (body : LlmRequestBody) :
    Except String String × List GeminiPayload :=
  if !(isConfiguredSecret env.geminiKey) then
    (.error "GEMINI_API_KEY is not configured.", [])
  else
    let endpoint := geminiEndpointOf body
    let payload : GeminiPayload := geminiPayloadOf body
    let resp := env.netGemini endpoint payload
    if !resp.ok then
      (.error ("Gemini text request failed (" ++ toString resp.status ++ "): "
          ++ resp.errText), [payload])
    else
      let text := jsTrim (jsJoin "\n" (resp.body.parts.map (fun p => p.text.getD "")))
      if text = "" then
        (.error "Gemini response did not contain text output.", [payload])
      else (.ok text, [payload])

/-! ## Client-side dispatch (src/lib/llm.ts) and JSON parsing -/
/-- A JavaScript JSON value (result of `JSON.parse`). -/
inductive JsVal
  | jnull
  | jbool (b : Bool)
  | jnum (n : Int)
  | jstr (s : String)
  | jarr (items : List JsVal)
  | jobj (fields : List (String × JsVal))

/-- JS truthiness of a parsed JSON value. -/
def jsTruthy : JsVal → Bool
  | .jnull => false
  | .jbool b => b
  | .jnum n => n != 0
  | .jstr s => s ≠ ""
  | .jarr _ => true
  | .jobj _ => true

/-- Property access `v[name]` on a parsed JSON value. -/
def jsField (v : JsVal) (name : String) : Option JsVal :=
  match v with
  | .jobj fields => (fields.find? (fun kv => kv.1 = name)).map (fun kv => kv.2)
  | _ => none

mutual

/-- JS `String(v)` on a parsed JSON value. -/
def jsToString : JsVal → String
  | .jnull => "null"
  | .jbool true => "true"
  | .jbool false => "false"
  | .jnum n => toString n
  | .jstr s => s
  | .jarr items => jsJoin "," (jsToStringList items)
  | .jobj _ => "[object Object]"

def jsToStringList : List JsVal → List String
  | [] => []
  | v :: vs => jsToString v :: jsToStringList vs

end

def openBraceChar : Char := Char.ofNat 123

def closeBraceChar : Char := Char.ofNat 125

/-- Embedding of `tryParseJson` (src/lib/llm.ts lines 71-89), over an abstract
model `parse` of the JavaScript built-in `JSON.parse` (`none` models a throw
or a `null` result): parse the trimmed text directly, else parse the slice
between the first opening brace and the last closing brace. -/
def tryParseJson (parse : String → Option JsVal) (rawText : String) : Option JsVal :=
  let direct := jsTrim rawText
  match parse direct with
  | some v => some v
  | none =>
    let ds := direct.data
    match ds.findIdx? (· = openBraceChar), (ds.reverse.findIdx? (· = closeBraceChar)) with
    | some start, some revEnd =>
      let endIdx := ds.length - 1 - revEnd
      if endIdx ≤ start then none
      else parse ⟨(ds.drop start).take (endIdx + 1 - start)⟩
    | some _, none => none
    | none, _ => none

structure LlmTextRequest where
  provider : LlmProvider
  model : String
  input : String
  instructions : Option String := none
  maxOutputTokens : Option Nat := none
  temperature : Option Rat := none
  baseUrl : String := ""
  useWebSearch : Bool := false
  authToken : Option String := none

/-! ## Orchestrator state (App.tsx)

The agent x/y movement state (`agents`, `moveMembersToRoom`,
`setMembersToDesk`, `moveReportersToCEO`) drives the out-of-scope office
animation only and is omitted.  `phaseTrace`, `llmCalls` and `llmLog` are
observation fields: `setPhase` records each phase it sets, and the proxy
wrapper records each dispatch-layer call it makes; neither feeds back into
any computation. -/
inductive WorkflowPhase
  | idle | brainstorming | collaboration | execution | reporting
  deriving DecidableEq, Repr

inductive Room
  | brainstorming | collaboration
  deriving DecidableEq, Repr

inductive TurnSource
  | workflow | chat
  deriving DecidableEq, Repr

inductive StoreSource
  | cloud | local
  deriving DecidableEq, Repr

inductive MessageKind
  | chat | report | image | system
  deriving DecidableEq, Repr

inductive AlertStatus
  | ok | warning
  deriving DecidableEq, Repr

structure ActivityLog where
  id : Nat
  threadId : String
  createdAt : Nat
  phase : WorkflowPhase
  message : String
  deriving DecidableEq, Repr

structure MeetingTurn where
  id : Nat
  threadId : String
  sessionId : String
  room : Room
  speakerId : String
  speakerName : String
  text : String
  createdAt : Nat
  source : TurnSource
  deriving DecidableEq, Repr

structure FileAsset where
  id : Nat
  name : String
  url : String
  mimeType : String
  size : Nat
  uploadedAt : Nat
  source : StoreSource
  path : Option String := none
  deriving DecidableEq, Repr

structure ReportItem where
  id : Nat
  threadId : String
  title : String
  body : String
  participants : List String
  createdAt : Nat
  assets : List FileAsset
  source : StoreSource
  deriving DecidableEq, Repr

structure OfficeMessage where
  id : Nat
  threadId : String
  senderId : String
  senderName : String
  senderRole : String
  kind : MessageKind
  text : String
  targetIds : List String
  attachments : List FileAsset
  createdAt : Nat
  source : StoreSource
  deriving DecidableEq, Repr

structure GovernanceAlert where
  id : Nat
  threadId : String
  source : String
  status : AlertStatus
  message : String
  createdAt : Nat
  deriving DecidableEq, Repr

structure ThreadGoal where
  id : String
  title : String
  description : String
  deriving DecidableEq, Repr

structure ThreadItem where
  id : String
  title : String
  createdAt : Nat
  updatedAt : Nat
  vision : String
  goals : List ThreadGoal
  deriving DecidableEq, Repr

/-- A browser `File` object, as far as the orchestrator inspects it. -/
structure WorkFile where
  name : String
  mimeType : String
  size : Nat
  deriving DecidableEq, Repr

structure BrainstormPlan where
  strategy : String
  participants : List String
  handoff : String
  deriving DecidableEq, Repr

structure CollaborationNote where
  memberId : String
  note : String
  deriving DecidableEq, Repr

structure CollaborationSessionResult where
  sessionId : String
  notes : List CollaborationNote
  transcript : List MeetingTurn
  deriving DecidableEq, Repr

structure RoleRuntimeConfig where
  provider : LlmProvider
  model : String
  apiKey : String
  baseUrl : String
  deriving DecidableEq, Repr

structure OfficeState where
  clock : Nat := 0
  phase : WorkflowPhase := .idle
  running : Bool := false
  workflowError : String := ""
  activeMembers : List String := []
  activityLogs : List ActivityLog := []
  localReports : List ReportItem := []
  cloudReportWrites : List ReportItem := []
  localMessages : List OfficeMessage := []
  cloudMessageWrites : List OfficeMessage := []
  meetingTurns : List MeetingTurn := []
  actionPlans : List ActionPlanItem := []
  governanceAlerts : List GovernanceAlert := []
  threads : List ThreadItem := []
  activeThreadId : String := "thread-main"
  workflowAttachmentFile : Option WorkFile := none
  llmCalls : Nat := 0
  llmLog : List LlmTextRequest := []
  phaseTrace : List WorkflowPhase := []

/-- The environment of oracles behind all awaited effects. -/
structure Env where
  /-- a signed-in user is present -/
  user : Bool
  devMock : Bool := false
  /-- result of `user.getIdToken()`; `none` models the call throwing -/
  idToken : Option String := none
  /-- the saved per-role runtime configuration map -/
  roleConfig : String → Option RoleRuntimeConfig := fun _ => none
  /-- the `/api/llm/text` proxy endpoint -/
  proxy : LlmTextRequest → FetchResp (Option String)
  /-- model of the JavaScript built-in `JSON.parse` -/
  jsonParse : String → Option JsVal := fun _ => none
  /-- outcome of a storage upload (`uploadBytes` + `getDownloadURL`) -/
  cloudUpload : Except String Unit := .ok ()
  /-- outcome of a firestore `addDoc` -/
  firestore : Except String Unit := .ok ()

def DEPLOYED_APP_URL : String := "https://automagent-8d64c.web.app"

/-- Embedding of `getProxyAuthToken`: empty when signed out or in dev-mock
mode; empty when `getIdToken()` throws. -/
def getProxyAuthToken (env : Env) : String :=
  if !env.user || env.devMock then "" else env.idToken.getD ""

/-- JS `a || b` on strings. -/
def jsOr (a b : String) : String := if a = "" then b else a

/-- Embedding of `getRoleDefaultModel`. -/
def getRoleDefaultModel (memberId : String) (provider : LlmProvider) : String :=
  match getMember memberId with
  | none => getDefaultModelForProvider provider
  | some member =>
    if provider = member.defaultProvider then member.defaultModel
    else getDefaultModelForProvider provider

structure ResolvedRuntime where
  provider : LlmProvider
  model : String
  apiKey : String
  baseUrl : String
  deriving DecidableEq, Repr

/-- Embedding of `resolveRuntime` (App.tsx lines 620-633). -/
def resolveRuntime (env : Env) (memberId : String) : ResolvedRuntime :=
  let member := getMember memberId
  let saved := env.roleConfig memberId
  let provider :=
    match saved with
    | some c => c.provider
    | none =>
      match member with
      | some m => m.defaultProvider
      | none => .openai
  { provider := provider,
    model := jsOr (jsTrim (match saved with | some c => c.model | none => ""))
      (jsOr (getRoleDefaultModel memberId provider) DEFAULT_OPENAI_MODEL),
    apiKey := jsTrim (match saved with | some c => c.apiKey | none => ""),
    baseUrl := jsTrim (match saved with | some c => c.baseUrl | none => "") }

/-- Embedding of `requestLlmText` (src/lib/llm.ts lines 27-69): one proxy
round trip; non-ok responses and empty text throw.  The call is recorded in
the observation fields. -/
def requestLlmText (env : Env) (req : LlmTextRequest) (s : OfficeState) :
    Except String String × OfficeState :=
  let s := { s with llmCalls := s.llmCalls + 1, llmLog := req :: s.llmLog }
  let resp := env.proxy req
  if !resp.ok then
    (.error ("Proxy LLM request failed (" ++ toString resp.status ++ "): "
        ++ resp.errText), s)
  else
    match resp.body with
    | none => (.error "Proxy LLM response did not contain output text.", s)
    | some t =>
      if jsTrim t = "" then
        (.error "Proxy LLM response did not contain output text.", s)
      else (.ok (jsTrim t), s)

/-- Embedding of `appendLog` (prepend, capped at 140). -/
def appendLog (currentPhase : WorkflowPhase) (message : String)
    (s : OfficeState) : OfficeState :=
  let next : ActivityLog :=
    { id := s.clock, threadId := s.activeThreadId, createdAt := s.clock,
      phase := currentPhase, message := message }
  { s with clock := s.clock + 1,
           activityLogs := (next :: s.activityLogs).take 140 }

/-- Embedding of `appendMeetingTurn` (prepend, capped at 320). -/
def appendMeetingTurnS (threadId sessionId : String) (room : Room)
    (speakerId speakerName text : String) (source : TurnSource)
    (s : OfficeState) : OfficeState :=
  let next : MeetingTurn :=
    { id := s.clock, threadId := threadId, sessionId := sessionId, room := room,
      speakerId := speakerId, speakerName := speakerName, text := text,
      createdAt := s.clock, source := source }
  { s with clock := s.clock + 1,
           meetingTurns := (next :: s.meetingTurns).take 320 }

/-- State-level wrapper of `upsertActionPlan`: the clock ticks only when the
guard passes (the source allocates `now` inside `setActionPlans`). -/
def upsertActionPlanS (memberId plan : String) (source : PlanSource)
    (threadId : String) (s : OfficeState) : OfficeState :=
  if (getMember memberId).isSome ∧ jsTrim plan ≠ "" then
    { s with clock := s.clock + 1,
             actionPlans := upsertActionPlan memberId plan source threadId
               s.clock s.actionPlans }
  else s

/-- Embedding of `addGovernanceAlert` (prepend, capped at 140). -/
def addGovernanceAlert (source message : String) (status : AlertStatus)
    (s : OfficeState) : OfficeState :=
  let next : GovernanceAlert :=
    { id := s.clock, threadId := s.activeThreadId, source := source,
      status := status, message := message, createdAt := s.clock }
  { s with clock := s.clock + 1,
           governanceAlerts := (next :: s.governanceAlerts).take 140 }

/-- `setPhase`, also recording the phase in the observation trace. -/
def setPhase (p : WorkflowPhase) (s : OfficeState) : OfficeState :=
  { s with phase := p, phaseTrace := s.phaseTrace ++ [p] }

/-- Embedding of `updateThread` restricted to the title patch used by
`startWorkflow`. -/
def updateThreadTitle (threadId title : String) (s : OfficeState) : OfficeState :=
  { s with clock := s.clock + 1,
           threads := s.threads.map (fun t =>
             if t.id = threadId then { t with title := title, updatedAt := s.clock }
             else t) }

/-- Timestamps shown inside documents (`formatTime`, `toLocaleTimeString`) are
opaque renderings of the clock. -/
def formatTime (n : Nat) : String := toString n

/-- Embedding of `uploadFileAsset` (App.tsx lines 880-917): signed-out users
get a local object-URL asset; signed-in uploads go through the storage oracle
and may throw.  URL strings are opaque deterministic placeholders. -/
def uploadFileAsset (env : Env) (f : WorkFile) (category : String)
    (s : OfficeState) : Except String FileAsset × OfficeState :=
  if !env.user then
    let asset : FileAsset :=
      { id := s.clock, name := f.name, url := "blob:local-" ++ toString s.clock,
        mimeType := jsOr f.mimeType "application/octet-stream", size := f.size,
        uploadedAt := s.clock, source := .local }
    (.ok asset, { s with clock := s.clock + 1 })
  else
    match env.cloudUpload with
    | .ok _ =>
      let path := "hobbytan-office/" ++ category ++ "/" ++ toString s.clock
      let asset : FileAsset :=
        { id := s.clock, name := f.name, url := "https://storage/" ++ path,
          mimeType := jsOr f.mimeType "application/octet-stream", size := f.size,
          uploadedAt := s.clock, source := .cloud, path := some path }
      (.ok asset, { s with clock := s.clock + 1 })
    | .error e => (.error e, s)

/-- Embedding of `uploadTextAsset` (lines 919-931). -/
def uploadTextAsset (env : Env) (content filename category : String)
    (mimeType : String) (s : OfficeState) : Except String FileAsset × OfficeState :=
  let normalizedMimeType :=
    if jsStartsWith mimeType "text/"
        && !(strContainsB (asciiLower mimeType) "charset=") then
      mimeType ++ "; charset=utf-8"
    else mimeType
  uploadFileAsset env
    { name := filename, mimeType := normalizedMimeType, size := content.length + 1 }
    category s

/-- Embedding of `persistOfficeMessage` (lines 933-957): cloud write when
signed in and the store succeeds; local fallback otherwise (appended at the
end of `localMessages`). -/
def persistOfficeMessage (env : Env) (senderId senderName senderRole : String)
    (kind : MessageKind) (text : String) (targetIds : List String)
    (attachments : List FileAsset) (threadId : String)
    (s : OfficeState) : OfficeState :=
  let msg : OfficeMessage :=
    { id := s.clock, threadId := threadId, senderId := senderId,
      senderName := senderName, senderRole := senderRole, kind := kind,
      text := text, targetIds := targetIds, attachments := attachments,
      createdAt := s.clock, source := .local }
  if !env.user then
    { s with clock := s.clock + 1, localMessages := s.localMessages ++ [msg] }
  else
    match env.firestore with
    | .ok _ =>
      { s with clock := s.clock + 1,
               cloudMessageWrites := { msg with source := .cloud } :: s.cloudMessageWrites }
    | .error _ =>
      { s with clock := s.clock + 1, localMessages := s.localMessages ++ [msg] }

/-- Embedding of `persistReport` (lines 959-973): cloud write when signed in
and the store succeeds; local fallback otherwise (prepended to `localReports`). -/
def persistReport (env : Env) (title body : String) (participants : List String)
    (assets : List FileAsset) (createdAt : Nat) (threadId : String)
    (s : OfficeState) : OfficeState :=
  let report : ReportItem :=
    { id := s.clock, threadId := threadId, title := title, body := body,
      participants := participants, createdAt := createdAt, assets := assets,
      source := .local }
  if !env.user then
    { s with clock := s.clock + 1, localReports := report :: s.localReports }
  else
    match env.firestore with
    | .ok _ =>
      { s with clock := s.clock + 1,
               cloudReportWrites := { report with source := .cloud } :: s.cloudReportWrites }
    | .error _ =>
      { s with clock := s.clock + 1, localReports := report :: s.localReports }

/-- The coordinator request `runBrainstorm` sends when online. -/
def brainstormRequest (env : Env) (task : String) : LlmTextRequest :=
  let roster := jsJoin "\n"
    ((COUNCIL_MEMBERS.filter (fun m => m.id ≠ "CEO-HOBBY")).map
      (fun m => m.id ++ ": " ++ m.identityPrompt))
  let runtime := resolveRuntime env "ATTENDANT-TAN"
  { provider := runtime.provider, model := runtime.model,
    baseUrl := runtime.baseUrl, authToken := some (getProxyAuthToken env),
    instructions := some "당신은 HOBBYTAN Council 조정자다. 반드시 JSON 객체만 응답하라. 코드블록 금지.",
    input := jsJoin "\n"
      ["CEO 지시: " ++ task,
       "\n참여 가능한 구성원/정체성:",
       roster,
       "\n반환 형식:",
       "\x7b\"strategy\":\"문장\",\"participants\":[\"PO-TAN\"],\"handoff\":\"문장\"\x7d"],
    temperature := some (0.35 : Rat), maxOutputTokens := some 700 }

/-- Embedding of `runBrainstorm` (App.tsx lines 975-1033). -/
def runBrainstorm (env : Env) (task : String) (s : OfficeState) :
    Except String BrainstormPlan × OfficeState :=
  let authToken := getProxyAuthToken env
  if authToken = "" then
    (.ok { strategy := "오프라인 전략: ATTENDANT-TAN이 PM/PO/DEV/UX/QA/LEGAL 중심으로 3단계 실행안을 구성하고 CEO에 단계별 보고한다.",
           participants := DEFAULT_COLLABORATION_TEAM,
           handoff := "협업실에서 세부 실행안 작성 후 담당자별 산출물을 CEO 좌석으로 전달" }, s)
  else
    match requestLlmText env (brainstormRequest env task) s with
    | (.error e, s) => (.error e, s)
    | (.ok text, s) =>
      let fallback : BrainstormPlan :=
        { strategy := text, participants := DEFAULT_COLLABORATION_TEAM,
          handoff := "협업실 세션 후 담당자가 CEO에게 보고" }
      match tryParseJson env.jsonParse text with
      | none => (.ok fallback, s)
      | some v =>
        if !(jsTruthy v) then (.ok fallback, s)
        else
          (.ok { strategy :=
                  match jsField v "strategy" with
                  | some (.jstr str) =>
                    if jsTrim str = "" then
                      "전략 초안이 생성되었지만 요약이 비어 있어 기본 플랜을 사용합니다."
                    else jsTrim str
                  | _ => "전략 초안이 생성되었지만 요약이 비어 있어 기본 플랜을 사용합니다.",
                 participants :=
                  match jsField v "participants" with
                  | some (.jarr items) =>
                    ((jsToStringList items).map jsTrim).filter (fun x => x ≠ "")
                  | _ => DEFAULT_COLLABORATION_TEAM,
                 handoff :=
                  match jsField v "handoff" with
                  | some (.jstr str) =>
                    if jsTrim str = "" then "협업실 논의 종료 후 CEO에게 최종 리포트 전달"
                    else jsTrim str
                  | _ => "협업실 논의 종료 후 CEO에게 최종 리포트 전달" }, s)

/-- Embedding of `runPoPmManagementPlan` (lines 1035-1093): two sequential
management generations, the second conditioned on the first. -/
def runPoPmManagementPlan (env : Env) (task strategy : String)
    (participants : List String) (s : OfficeState) :
    Except String (String × String) × OfficeState :=
  let authToken := getProxyAuthToken env
  let participantText := jsJoin ", " participants
  if authToken = "" then
    (.ok ("PO-TAN 배정안(오프라인): " ++ participantText ++ " 기준으로 고객가치/리스크 기반 우선순위를 지정",
          "PM-TAN 일정안(오프라인): 담당자별 D1~D5 마일스톤과 의존성 관리"), s)
  else
    let poRuntime := resolveRuntime env "PO-TAN"
    let pmRuntime := resolveRuntime env "PM-TAN"
    let poMember := getMember "PO-TAN"
    let pmMember := getMember "PM-TAN"
    match requestLlmText env
      { provider := poRuntime.provider, model := poRuntime.model,
        baseUrl := poRuntime.baseUrl, authToken := some authToken,
        instructions := some (jsOr
          (match poMember with | some m => m.identityPrompt | none => "")
          "당신은 PO-TAN이다. 우선순위 기준으로 업무를 배정한다."),
        input := jsJoin "\n\n"
          ["CEO 지시: " ++ task,
           "브레인스토밍 전략: " ++ strategy,
           "협업 참여자: " ++ participantText,
           "역할: 참여자별 업무 배정 + 우선순위 + 승인기준을 제시하라.",
           "형식: 담당자별 항목을 포함한 간결한 실행 지시문"],
        maxOutputTokens := some 700, temperature := some (0.35 : Rat) } s with
    | (.error e, s) => (.error e, s)
    | (.ok poPlan, s) =>
      match requestLlmText env
        { provider := pmRuntime.provider, model := pmRuntime.model,
          baseUrl := pmRuntime.baseUrl, authToken := some authToken,
          instructions := some (jsOr
            (match pmMember with | some m => m.identityPrompt | none => "")
            "당신은 PM-TAN이다. 일정과 병목을 관리한다."),
          input := jsJoin "\n\n"
            ["CEO 지시: " ++ task,
             "브레인스토밍 전략: " ++ strategy,
             "PO 배정안: " ++ poPlan,
             "역할: 담당자별 일정/WBS, 의존성, 완료 조건, 리스크 완화 순서를 명시하라."],
          maxOutputTokens := some 700, temperature := some (0.35 : Rat) } s with
      | (.error e, s) => (.error e, s)
      | (.ok pmPlan, s) => (.ok (poPlan, pmPlan), s)

/-- The dispatch request one collaboration turn sends when online. -/
def collabTurnRequest (env : Env) (task strategy managementContext : String)
    (authToken : String) (member : CouncilMember)
    (memberId priorDialogue : String) : LlmTextRequest :=
  let runtime := resolveRuntime env memberId
  { provider := runtime.provider, model := runtime.model,
    baseUrl := runtime.baseUrl, authToken := some authToken,
    instructions := some member.identityPrompt,
    input := jsJoin "\n\n"
      ["CEO 지시: " ++ task,
       "브레인스토밍 전략: " ++ strategy,
       "PO/PM 관리 배정안: " ++ jsOr managementContext "없음",
       "이전 발언 기록(먼저 말한 에이전트의 발언을 반드시 반영할 것):",
       jsOr priorDialogue "아직 발언 없음",
       "당신 차례: 앞선 발언을 이어받아 액션 2개 + 리스크/대응 1개 + 다음 담당자에게 넘길 한 줄을 제시하라."],
    temperature := some (0.45 : Rat), maxOutputTokens := some 700,
    useWebSearch := memberId = "RESEARCHER-TAN" }

/-- One turn's note: the offline canned proposal, the trimmed dispatch reply,
or the fixed failure-notice substitute when the call threw. -/
def collabTurnNote (env : Env) (task strategy managementContext : String)
    (authToken : String) (member : CouncilMember)
    (memberId priorDialogue : String) (s : OfficeState) : String × OfficeState :=
  if authToken = "" then
    ("오프라인 제안: " ++ member.role ++ " 관점에서 '" ++ task
      ++ "' 실행을 위한 핵심 2단계 액션, 리스크 1개, CEO 확인 포인트 1개를 제안합니다.", s)
  else
    match requestLlmText env
      (collabTurnRequest env task strategy managementContext authToken member
        memberId priorDialogue) s with
    | (.ok t, s) => (t, s)
    | (.error msg, s) => ("호출 실패로 기본 제안 사용: " ++ msg, s)

/-- One turn after another of `runCollaboration`'s `for` loop (App.tsx lines
1111-1180): unknown members are skipped; online turns make exactly one
dispatch call; a failed call substitutes the fixed failure-notice string; the
note is appended to the transcript, the state, and the accumulating
`priorDialogue` block before the next member's turn is built. -/
def collabLoop (env : Env) (task strategy managementContext sessionId : String)
    (authToken : String) :
    List String → String → OfficeState →
      List CollaborationNote × List MeetingTurn × OfficeState
  | [], _, s => ([], [], s)
  | memberId :: rest, priorDialogue, s =>
    match getMember memberId with
    | none => collabLoop env task strategy managementContext sessionId authToken
        rest priorDialogue s
    | some member =>
      -- await sleep(320): no state effect
      let ns := collabTurnNote env task strategy managementContext authToken
        member memberId priorDialogue s
      let note := ns.1
      let s := ns.2
      let turn : MeetingTurn :=
        { id := s.clock, threadId := s.activeThreadId, sessionId := sessionId,
          room := .collaboration, speakerId := member.id,
          speakerName := member.displayName, text := note, createdAt := s.clock,
          source := .workflow }
      let s := { s with clock := s.clock + 1 }
      let s := appendMeetingTurnS s.activeThreadId sessionId .collaboration
        member.id member.displayName note .workflow s
      let s := appendLog .collaboration (member.id ++ " 발언 공유 완료") s
      let pd := priorDialogue ++ member.id ++ ": " ++ note ++ "\n\n"
      let rest3 :=
        collabLoop env task strategy managementContext sessionId authToken rest pd s
      (⟨memberId, note⟩ :: rest3.1, turn :: rest3.2.1, rest3.2.2)

/-- Embedding of `runCollaboration` (App.tsx lines 1095-1187): at most the
first 8 participants are processed, in the supplied order. -/
def runCollaboration (env : Env) (task strategy : String)
    (participants : List String) (managementContext : String)
    (s : OfficeState) : CollaborationSessionResult × OfficeState :=
  let selected := participants.take 8
  let sessionId := "collab-" ++ toString s.clock
  let s := { s with clock := s.clock + 1 }
  let authToken := getProxyAuthToken env
  let priorDialogue :=
    if managementContext = "" then ""
    else "PO/PM 관리 배정안:\n" ++ managementContext ++ "\n\n"
  let r3 :=
    collabLoop env task strategy managementContext sessionId authToken
      selected priorDialogue s
  ({ sessionId := sessionId, notes := r3.1, transcript := r3.2.1 }, r3.2.2)

/-- Embedding of `runFinalReport` (App.tsx lines 1189-1246). -/
def runFinalReport (env : Env) (task strategy : String)
    (notes : List CollaborationNote) (detailedActionPlans : List ActionPlanItem)
    (s : OfficeState) : Except String String × OfficeState :=
  let runtime := resolveRuntime env "ATTENDANT-TAN"
  let authToken := getProxyAuthToken env
  let joinedNotes := jsJoin "\n\n"
    (notes.map (fun item => item.memberId ++ ": " ++ item.note))
  let joinedPlans := jsJoin "\n\n"
    (detailedActionPlans.enum.map (fun iplan =>
      toString (iplan.1 + 1) ++ ". " ++ iplan.2.memberId ++ " ("
        ++ iplan.2.memberName ++ ")\n" ++ iplan.2.plan))
  if authToken = "" then
    (.ok (jsJoin "\n"
      (["[CEO 최종 보고서 - 오프라인 모드]",
        "지시 사항: " ++ task,
        "전략: " ++ strategy,
        "실행 핵심:"]
       ++ notes.map (fun item => "- " ++ item.memberId ++ ": " ++ item.note)
       ++ ["", "TAN별 액션플랜:", jsOr joinedPlans "- 없음"])), s)
  else
    requestLlmText env
      { provider := runtime.provider, model := runtime.model,
        baseUrl := runtime.baseUrl, authToken := some authToken,
        instructions := some "당신은 ATTENDANT-TAN이다. 대표에게 올리는 상세 경영 실행보고서를 작성한다. 절대 요약형으로 끝내지 말고, 실제 실행/개발/배포까지 이어질 수준으로 상세하게 작성한다.",
        input := jsJoin "\n\n"
          ["CEO 지시: " ++ task,
           "브레인스토밍 전략: " ++ strategy,
           "협업실 산출물:",
           joinedNotes,
           "TAN별 액션플랜:",
           jsOr joinedPlans "없음",
           "응답 형식:",
           "1) 경영 요약(2~3문단)",
           "2) TAN별 상세 액션플랜(담당/산출물/완료조건/예상소요/선행의존성)",
           "3) 개발 실행안(기능 구현 범위, 테스트 계획, 품질 게이트)",
           "4) 배포 실행안(환경/체크리스트/롤백/모니터링)",
           "5) 리스크/법무/HR 감시 포인트",
           "6) CEO 승인 필요 항목",
           "7) 승인 직후 다음 플로우(오늘/내일/이번주 액션)"],
        temperature := some (0.3 : Rat), maxOutputTokens := some 2400 } s

/-- Embedding of `runOfficerSingleReply` (App.tsx lines 1248-1300): a single
generation call for one agent; offline mode returns the canned reply; an
unknown member yields a fixed string without throwing. -/
def runOfficerSingleReply (env : Env) (memberId prompt : String)
    (attachments : List FileAsset) (targetLabel : String)
    (priorDialogue : String) (s : OfficeState) :
    Except String String × OfficeState :=
  match getMember memberId with
  | none => (.ok "역할 정보를 찾지 못했습니다.", s)
  | some member =>
    let runtime := resolveRuntime env memberId
    let authToken := getProxyAuthToken env
    let attachmentSummary :=
      if attachments.length > 0 then
        jsJoin "\n" (attachments.map (fun asset =>
          asset.name ++ " (" ++ asset.mimeType ++ ", " ++ toString asset.size
            ++ " bytes)"))
      else "없음"
    let devSyncInstruction :=
      if memberId = "DEV-TAN" then
        jsJoin "\n"
          ["DEV-TAN 추가 의무:",
           "- GitHub 소스와 현재 배포 버전(" ++ DEPLOYED_APP_URL ++ ") 정합성 점검",
           "- 불일치 발견 시 재배포 체크리스트와 즉시 조치안 보고"]
      else ""
    if authToken = "" then
      (.ok (member.role ++ " 오프라인 응답: '" ++ prompt
        ++ "'에 대한 3단계 실행안, 리스크 1개, CEO 확인 포인트 1개를 제시합니다."), s)
    else
      requestLlmText env
        { provider := runtime.provider, model := runtime.model,
          baseUrl := runtime.baseUrl, authToken := some authToken,
          instructions := some member.identityPrompt,
          input := jsJoin "\n\n"
            ["CEO 메시지: " ++ prompt,
             "대상: " ++ targetLabel,
             "첨부 파일: " ++ attachmentSummary,
             "이전 대화 요약: " ++ jsOr priorDialogue "없음",
             devSyncInstruction,
             "형식: 핵심 요약 1문단 + 액션 3개 + 리스크/대응 1개 + 보고 문장 1개"],
          temperature := some (0.4 : Rat), maxOutputTokens := some 750,
          useWebSearch := memberId = "RESEARCHER-TAN" } s

def GOVERNANCE_RISK_TERMS : List String := ["위반", "리스크", "warning", "금지", "불가"]

/-- Embedding of the `/위반|리스크|warning|금지|불가/i` test: only "warning"
contains ASCII letters, so lowering the reply captures the `/i` flag. -/
def riskRegexTest (reply : String) : Bool :=
  GOVERNANCE_RISK_TERMS.any (fun t => strContainsB (asciiLower reply) t)

def alertStatusLabel : AlertStatus → String
  | .ok => "ok"
  | .warning => "warning"

/-- One checker pass of `runGovernanceWatch` (App.tsx lines 1320-1343): a
checker failure is converted into a warning alert, never propagated. -/
def governanceCheckerStep (env : Env) (context : String) (checker : String)
    (s : OfficeState) : OfficeState :=
  match runOfficerSingleReply env checker
      ("다음 실행 맥락이 HOBBYTAN 헌법(법/규정 준수, 역할 충돌 금지, 개인정보/보안 보호)을 위반하는지 감사: "
        ++ context) [] "CEO-HOBBY" "" s with
  | (.ok reply, s) =>
    let status : AlertStatus := if riskRegexTest reply then .warning else .ok
    let s := addGovernanceAlert checker reply status s
    appendLog .execution (checker ++ " 감시 보고 (" ++ alertStatusLabel status ++ ")") s
  | (.error msg, s) =>
    let s := addGovernanceAlert checker msg .warning s
    appendLog .execution (checker ++ " 감시 실패: " ++ msg) s

/-- Embedding of `runGovernanceWatch`: the two checkers run one after the
other; a failure in one does not cancel the other. -/
def runGovernanceWatch (env : Env) (context : String) (s : OfficeState) :
    OfficeState :=
  governanceCheckerStep env context "HR-TAN"
    (governanceCheckerStep env context "LEGAL-TAN" s)

/-- The fresh `reportPlans` snapshot built in the reporting phase (App.tsx
lines 1573-1604): management records for PO/PM, then one record per
collaboration note, each with a fresh id and timestamps. -/
def mkReportPlanNote (threadId : String) (item : CollaborationNote)
    (now : Nat) : ActionPlanItem :=
  { id := now, threadId := threadId, memberId := item.memberId,
    memberName :=
      (match getMember item.memberId with
       | some m => m.displayName
       | none => item.memberId),
    plan := item.note, source := .workflow, createdAt := now, updatedAt := now }

def mkReportPlansNotes (threadId : String) :
    List CollaborationNote → OfficeState → List ActionPlanItem × OfficeState
  | [], s => ([], s)
  | item :: rest, s =>
    let rec0 := mkReportPlanNote threadId item s.clock
    let rest2 := mkReportPlansNotes threadId rest { s with clock := s.clock + 1 }
    (rec0 :: rest2.1, rest2.2)

def mkReportPlans (threadId poPlan pmPlan : String)
    (notes : List CollaborationNote) (s : OfficeState) :
    List ActionPlanItem × OfficeState :=
  let poRec : ActionPlanItem :=
    { id := s.clock, threadId := threadId, memberId := "PO-TAN",
      memberName :=
        (match getMember "PO-TAN" with
         | some m => m.displayName
         | none => "PO-TAN"),
      plan := poPlan, source := .management, createdAt := s.clock,
      updatedAt := s.clock }
  let s := { s with clock := s.clock + 1 }
  let pmRec : ActionPlanItem :=
    { id := s.clock, threadId := threadId, memberId := "PM-TAN",
      memberName :=
        (match getMember "PM-TAN" with
         | some m => m.displayName
         | none => "PM-TAN"),
      plan := pmPlan, source := .management, createdAt := s.clock,
      updatedAt := s.clock }
  let s := { s with clock := s.clock + 1 }
  let nr := mkReportPlansNotes threadId notes s
  (poRec :: pmRec :: nr.1, nr.2)

/-- Section of the `try` block covering the management turns, the
collaboration session, the plan upserts from the session notes and the move
into the execution phase (App.tsx lines 1535-1566). -/
def runManagementAndCollab (env : Env) (trimmedTask strategy : String)
    (collaborationMembers : List String) (poPlan pmPlan : String)
    (s : OfficeState) : CollaborationSessionResult × OfficeState :=
  let managementContext := jsJoin "\n"
    ["[PO-TAN 업무 배정]", poPlan, "", "[PM-TAN 일정 관리]", pmPlan]
  let s := appendMeetingTurnS s.activeThreadId ("manage-" ++ toString s.clock)
    .collaboration "PO-TAN" "PO-TAN" poPlan .workflow s
  let s := upsertActionPlanS "PO-TAN" poPlan .management s.activeThreadId s
  let s := appendMeetingTurnS s.activeThreadId
    ("manage-" ++ toString s.clock ++ "-pm") .collaboration "PM-TAN" "PM-TAN"
    pmPlan .workflow s
  let s := upsertActionPlanS "PM-TAN" pmPlan .management s.activeThreadId s
  let s := appendLog .collaboration "PO-TAN/PM-TAN 업무 배정 및 일정 관리안 확정" s
  -- await sleep(1000)
  let collabPair := runCollaboration env trimmedTask
    strategy collaborationMembers managementContext s
  let collaborationSession := collabPair.1
  let s := collabPair.2
  let notes := collaborationSession.notes
  let s := notes.foldl (fun s item =>
    upsertActionPlanS item.memberId item.note .workflow s.activeThreadId s) s
  let s := appendLog .collaboration
    ("회의 로그 기록 완료: 세션 " ++ collaborationSession.sessionId ++ ", 발언 "
      ++ toString collaborationSession.transcript.length ++ "건") s
  let s := setPhase .execution s
  let s := appendLog .execution "협업 결과를 기반으로 각 부서가 실제 결과물을 작성합니다." s
  (collaborationSession, s)

/-- Section of the `try` block uploading the pending workflow attachment, if
any (App.tsx lines 1567-1572); an upload failure is logged and the run
continues. -/
def runAttachmentInbound (env : Env) (s : OfficeState) :
    Option FileAsset × OfficeState :=
  match s.workflowAttachmentFile with
  | none => ((none : Option FileAsset), s)
  | some f =>
    let s := appendLog .execution ("첨부 파일 업로드 시작: " ++ f.name) s
    match uploadFileAsset env f "workflow-inputs" s with
    | (.ok asset, s) => (some asset, appendLog .execution "첨부 파일 업로드 완료" s)
    | (.error msg, s) =>
      ((none : Option FileAsset),
        appendLog .execution ("첨부 업로드 실패(계속 진행): " ++ msg) s)

/-- Section of the `try` block after the final report text is produced
(App.tsx lines 1645-1701): upload the report document and the meeting log,
persist the report and the CEO-directed report message, run the governance
watch, and log the delivery. -/
def deliverFinalReport (env : Env) (trimmedTask strategy : String)
    (collaborationMembers : List String)
    (collaborationSession : CollaborationSessionResult)
    (inboundAsset : Option FileAsset) (finalReportText : String)
    (s : OfficeState) : OfficeState :=
  let docPair :=
    match uploadTextAsset env finalReportText
        ("ceo-report-" ++ toString s.clock ++ ".md") "reports"
        "text/markdown" s with
    | (.ok a, s) => (some a, s)
    | (.error _, s) => ((none : Option FileAsset), s)
  let reportDocumentAsset := docPair.1
  let s := docPair.2
  let logPair :=
    if collaborationSession.transcript.length > 0 then
      let transcriptBody := jsJoin "\n\n"
        (collaborationSession.transcript.map (fun turn =>
          "- [" ++ formatTime turn.createdAt ++ "] " ++ turn.speakerId
            ++ ": " ++ turn.text))
      match uploadTextAsset env
          (jsJoin "\n"
            ["# 회의 로그",
             "- Session: " ++ collaborationSession.sessionId,
             "- Task: " ++ trimmedTask,
             "- Strategy: " ++ strategy,
             "",
             transcriptBody])
          ("meeting-log-" ++ collaborationSession.sessionId ++ ".md")
          "reports" "text/markdown" s with
      | (.ok a, s) => (some a, s)
      | (.error _, s) => ((none : Option FileAsset), s)
    else ((none : Option FileAsset), s)
  let meetingLogAsset := logPair.1
  let s := logPair.2
  let reportAssets :=
    ([reportDocumentAsset, meetingLogAsset, inboundAsset].filterMap id)
  let reportTitle :=
    if trimmedTask.length > 42 then jsTrim ⟨trimmedTask.data.take 42⟩ ++ "..."
    else trimmedTask
  let s' := persistReport env
    ("[" ++ formatTime s.clock ++ "] " ++ reportTitle) finalReportText
    collaborationMembers reportAssets s.clock s.activeThreadId s
  let s := persistOfficeMessage env "ATTENDANT-TAN" "ATTENDANT-TAN"
    "DEO / Executive Attendant" .report finalReportText ["CEO-HOBBY"]
    reportAssets s'.activeThreadId s'
  let s := runGovernanceWatch env
    ("워크플로우 최종 보고: " ++ trimmedTask ++ "\n전략: " ++ strategy
      ++ "\n참여자: " ++ jsJoin ", " collaborationMembers) s
  appendLog .reporting
    ("CEO 좌석으로 보고 전달 완료. 참여자: " ++ jsJoin ", " collaborationMembers) s

/-- The body of `startWorkflow`'s `try` block (App.tsx lines 1444-1701),
assembled from the stage sections above.
An `Except.error` carries the thrown message together with the state at the
throw point, since state effects before the throw persist into the `catch`. -/
def runWorkflowBody (env : Env) (trimmedTask : String) (s : OfficeState) :
    Except (String × OfficeState) OfficeState :=
  let nonCeoMembers :=
    (COUNCIL_MEMBERS.filter (fun m => m.id ≠ "CEO-HOBBY")).map (fun m => m.id)
  let s := appendLog .brainstorming ("CEO 지시 접수: " ++ trimmedTask) s
  let s := setPhase .brainstorming s
  let s := { s with activeMembers := nonCeoMembers }
  -- moveMembersToRoom / setMembersToDesk: rendering only; await sleep(900)
  match runBrainstorm env trimmedTask s with
  | (.error e, s) => .error (e, s)
  | (.ok brainstorm, s) =>
    let s := appendLog .brainstorming ("전략 수립 완료: " ++ brainstorm.strategy) s
    let s := appendMeetingTurnS s.activeThreadId ("brain-" ++ toString s.clock)
      .brainstorming "ATTENDANT-TAN" "ATTENDANT-TAN" brainstorm.strategy .workflow s
    let participants := dedupFirst
      (((brainstorm.participants.map asciiUpper).filter
          (fun memberId => memberId ≠ "CEO-HOBBY")).filter
        (fun memberId => (getMember memberId).isSome))
    let collaborationMembers :=
      if participants.length > 0 then participants
      else DEFAULT_COLLABORATION_TEAM.filter (fun memberId => (getMember memberId).isSome)
    let s := setPhase .collaboration s
    let s := { s with activeMembers := collaborationMembers }
    let s := appendLog .collaboration
      (toString collaborationMembers.length ++ "명이 협업회의실로 이동해 실행안을 구체화합니다.") s
    match runPoPmManagementPlan env trimmedTask brainstorm.strategy
        collaborationMembers s with
    | (.error e, s) => .error (e, s)
    | (.ok (poPlan, pmPlan), s) =>
      let collabPair := runManagementAndCollab env trimmedTask
        brainstorm.strategy collaborationMembers poPlan pmPlan s
      let collaborationSession := collabPair.1
      let s := collabPair.2
      -- await sleep(900); attachment upload failure is logged, run continues
      let inboundPair := runAttachmentInbound env s
      let inboundAsset := inboundPair.1
      let s := setPhase .reporting inboundPair.2
      -- moveReportersToCEO / setMembersToDesk: rendering only
      let planPair := mkReportPlans s.activeThreadId poPlan pmPlan
        collaborationSession.notes s
      let reportPlans := planPair.1
      let s := planPair.2
      match runFinalReport env trimmedTask brainstorm.strategy
          collaborationSession.notes reportPlans s with
      | (.error e, s) => .error (e, s)
      | (.ok finalReportText, s) =>
        .ok (deliverFinalReport env trimmedTask brainstorm.strategy
          collaborationMembers collaborationSession inboundAsset
          finalReportText s)

/-- The success finalization at the end of `startWorkflow`'s `try` block
(App.tsx lines 1693-1701): clear the pending attachment, return to idle and
clear the running flag and active-member markers.  These `setState` calls
cannot throw, so applying them outside `runWorkflowBody`'s `Except` is
equivalent to the source's placement inside the `try`. -/
def finishWorkflowRun (s : OfficeState) : OfficeState :=
  let s := { s with workflowAttachmentFile := none }
  let s := setPhase .idle s
  { s with running := false, activeMembers := [] }

/-- Embedding of `startWorkflow` (App.tsx lines 1423-1713): input-validation
guards, the linear phase body, and the catch branch forcing the state back to
idle. -/
def startWorkflow (env : Env) (task : String) (s : OfficeState) : OfficeState :=
  if jsTrim task = "" then
    { s with workflowError := "CEO 지시 문장을 입력하세요." }
  else if s.running then
    { s with workflowError := "이미 워크플로우가 실행 중입니다." }
  else
    let trimmedTask := jsTrim task
    let s := { s with workflowError := "", running := true }
    let s := updateThreadTitle s.activeThreadId
      (if trimmedTask.length > 36 then jsTrim ⟨trimmedTask.data.take 36⟩ ++ "..."
       else trimmedTask) s
    match runWorkflowBody env trimmedTask s with
    | .ok s' => finishWorkflowRun s'
    | .error (message, sf) =>
      let sf := { sf with workflowError := message }
      let sf := appendLog .reporting ("워크플로우 실패: " ++ message) sf
      let sf := setPhase .idle sf
      { sf with running := false, activeMembers := [] }

/-! ## Governance watcher observer (App.tsx lines 2539-2607)

The debounced activity observer effect, modelled as one step function over
the three refs (`governanceSignatureRef`, `governancePollingRef`,
`governanceLastRunRef`).  A returned `ScheduledAudit` stands for the
`setTimeout` that will run `runGovernanceWatch` and then, in its `finally`,
stamp `lastRun` and clear the single-flight flag (`govComplete`). -/
structure GovRefs where
  signature : String := ""
  polling : Bool := false
  lastRun : Nat := 0
  deriving DecidableEq, Repr

structure ScheduledAudit where
  delayMs : Nat
  context : String
  deriving DecidableEq, Repr

def jsonEscapeChar (c : Char) : List Char :=
  if c = '"' then ['\\', '"']
  else if c = '\\' then ['\\', '\\']
  else [c]

def jsonStr (s : String) : String :=
  "\"" ++ (⟨(s.data.map jsonEscapeChar).flatten⟩ : String) ++ "\""

def govMsgJson (m : OfficeMessage) : String :=
  "\x7b\"id\":" ++ toString m.id ++ ",\"senderId\":" ++ jsonStr m.senderId
    ++ ",\"createdAt\":" ++ toString m.createdAt ++ "\x7d"

def govTurnJson (t : MeetingTurn) : String :=
  "\x7b\"id\":" ++ toString t.id ++ ",\"speakerId\":" ++ jsonStr t.speakerId
    ++ ",\"createdAt\":" ++ toString t.createdAt ++ "\x7d"

/-- The `JSON.stringify` content fingerprint of the bounded recent-activity
window: thread id plus id / sender / timestamp of each included message and
meeting turn. -/
def govSignature (threadId : String) (msgs : List OfficeMessage)
    (turns : List MeetingTurn) : String :=
  "\x7b\"threadId\":" ++ jsonStr threadId
    ++ ",\"messages\":[" ++ jsJoin "," (msgs.map govMsgJson)
    ++ "],\"meetings\":[" ++ jsJoin "," (turns.map govTurnJson) ++ "]\x7d"

/-- The audit context string the scheduled timer builds. -/
def govContext (threadTitle : String) (msgs : List OfficeMessage)
    (turns : List MeetingTurn) : String :=
  jsJoin "\n"
    (["Thread: " ++ threadTitle, "최근 CEO/오피서 채팅:"]
     ++ msgs.map (fun item =>
          "- " ++ item.senderId ++ " -> " ++ jsOr (jsJoin "," item.targetIds) "N/A"
            ++ ": " ++ item.text)
     ++ ["최근 회의 발언:"]
     ++ turns.map (fun item => "- " ++ item.speakerId ++ ": " ++ item.text))

/-- One run of the observer effect body: guards, windowing, fingerprint
dedup, single-flight flag and cooldown, then scheduling with the
running-dependent debounce delay. -/
def govObserve (user devMock : Bool) (threadId threadTitle : String)
    (visMessages : List OfficeMessage) (visTurns : List MeetingTurn)
    (now : Nat) (running : Bool) (g : GovRefs) :
    GovRefs × Option ScheduledAudit :=
  if !user || devMock then (g, none)
  else
    let messageSlice := takeLast 4 visMessages
    let meetingSlice := takeLast 6 visTurns
    if messageSlice.length = 0 ∧ meetingSlice.length = 0 then (g, none)
    else
      let signature := govSignature threadId messageSlice meetingSlice
      if signature = g.signature then (g, none)
      else if g.polling || decide (now - g.lastRun < 45000) then (g, none)
      else
        ({ signature := signature, polling := true, lastRun := g.lastRun },
         some { delayMs := if running then 2500 else 7000,
                context := govContext threadTitle messageSlice meetingSlice })

/-- The `finally` of the scheduled audit: stamp the completion time and clear
the single-flight flag. -/
def govComplete (g : GovRefs) (now : Nat) : GovRefs :=
  { g with lastRun := now, polling := false }

def onlineStubEnv : Env :=
  { user := true, idToken := some "tok",
    proxy := fun _ => { ok := true, status := 200, body := some "not json" },
    jsonParse := fun _ => none }

def geminiFailEnv : DispatchEnv :=
  { openaiKey := "k", anthropicKey := "k", xaiKey := "k", geminiKey := "k",
    netOpenAI := fun _ _ => { ok := false, status := 500, body := {} },
    netAnthropic := fun _ _ => { ok := false, status := 500, body := {} },
    netXAI := fun _ _ => { ok := false, status := 500, body := {} },
    netGemini := fun _ _ => { ok := false, status := 500, body := {}, errText := "boom" } }

/-- The state at the end of one collaboration turn (dispatch bookkeeping, the
fresh id tick, the recorded `MeetingTurn`, the activity log entry). -/
def collabAfterTurn (env : Env) (task strategy mgmt sid auth : String)
    (member : CouncilMember) (memberId pd : String) (s : OfficeState) :
    OfficeState :=
  let ns := collabTurnNote env task strategy mgmt auth member memberId pd s
  let s2 := { ns.2 with clock := ns.2.clock + 1 }
  appendLog .collaboration (member.id ++ " 발언 공유 완료")
    (appendMeetingTurnS s2.activeThreadId sid .collaboration member.id
      member.displayName ns.1 .workflow s2)

/-- The transcript record a collaboration turn pushes (built on the state
right after the dispatch call, before the fresh tick). -/
def collabTurnRecord (sid : String) (member : CouncilMember) (note : String)
    (s : OfficeState) : MeetingTurn :=
  { id := s.clock, threadId := s.activeThreadId, sessionId := sid,
    room := .collaboration, speakerId := member.id,
    speakerName := member.displayName, text := note, createdAt := s.clock,
    source := .workflow }

/-! ## Theorems -/

theorem strContains_self (s : String) : strContains s s :=
  ⟨[], [], by simp⟩

theorem strContains_append_left {s t : String} (u : String)
    (h : strContains s t) : strContains (u ++ s) t := by
  obtain ⟨p, q, hp⟩ := h
  exact ⟨u.data ++ p, q, by simp [String.data_append, hp]⟩

theorem strContains_append_right {s t : String} (u : String)
    (h : strContains s t) : strContains (s ++ u) t := by
  obtain ⟨p, q, hp⟩ := h
  exact ⟨p, q ++ u.data, by simp [String.data_append, hp]⟩

theorem strContains_middle (a t b : String) : strContains (a ++ t ++ b) t :=
  strContains_append_right b (strContains_append_left a (strContains_self t))

theorem jsJoin_cons_cons (sep x y : String) (xs : List String) :
    jsJoin sep (x :: y :: xs) = x ++ sep ++ jsJoin sep (y :: xs) := rfl

/-! ## Registry lemmas -/
theorem planKey_eq_iff {p : ActionPlanItem} {T A : String} :
    planKey p = (T, A) ↔ planKeyMatches T A p = true := by
  simp [planKey, planKeyMatches, Prod.ext_iff]

theorem overwriteFirstPlan_map_planKey (T A text : String) (src : PlanSource)
    (now : Nat) (l : List ActionPlanItem) :
    (overwriteFirstPlan T A text src now l).map planKey = l.map planKey := by
  induction l with
  | nil => rfl
  | cons p ps ih =>
    by_cases h : planKeyMatches T A p = true
    · simp [overwriteFirstPlan, h, planKey]
    · simp [overwriteFirstPlan, h, ih]

theorem not_mem_keys_of_not_any {l : List ActionPlanItem} {T A : String}
    (h : l.any (planKeyMatches T A) = false) : (T, A) ∉ l.map planKey := by
  intro hmem
  obtain ⟨p, hp, hkey⟩ := List.mem_map.1 hmem
  have := (List.any_eq_false.1 h) p hp
  exact this (planKey_eq_iff.1 hkey)

theorem plansKeyUnique_upsertActionPlan (mId p : String) (src : PlanSource)
    (T : String) (now : Nat) (l : List ActionPlanItem)
    (h : PlansKeyUnique l) :
    PlansKeyUnique (upsertActionPlan mId p src T now l) := by
  unfold upsertActionPlan
  cases hm : getMember mId with
  | none => exact h
  | some member =>
    dsimp only
    by_cases ht : jsTrim p = ""
    · rw [if_pos ht]; exact h
    · by_cases ha : l.any (planKeyMatches T mId) = true
      · rw [if_neg ht, if_pos ha]
        unfold PlansKeyUnique
        rw [overwriteFirstPlan_map_planKey]
        exact h
      · have hna : l.any (planKeyMatches T mId) = false := by
          simpa using ha
        rw [if_neg ht, hna, if_neg Bool.false_ne_true]
        have hnew : PlansKeyUnique
            ({ id := now, threadId := T, memberId := mId,
               memberName := member.displayName, plan := jsTrim p, source := src,
               createdAt := now, updatedAt := now } :: l) := by
          unfold PlansKeyUnique
          rw [List.map_cons, List.nodup_cons]
          exact ⟨not_mem_keys_of_not_any hna, h⟩
        unfold PlansKeyUnique at hnew ⊢
        rw [List.map_take]
        exact List.Nodup.sublist (List.take_sublist _ _) hnew

theorem plansKeyUnique_applyUpserts (ops : List UpsertOp) :
    ∀ (clock : Nat) (plans : List ActionPlanItem),
      PlansKeyUnique plans → PlansKeyUnique (applyUpserts ops clock plans) := by
  induction ops with
  | nil => intro _ _ h; exact h
  | cons op ops ih =>
    intro clock plans h
    exact ih _ _ (plansKeyUnique_upsertActionPlan _ _ _ _ _ _ h)

theorem filter_length_le_one_of_keyUnique {l : List ActionPlanItem}
    (h : PlansKeyUnique l) (T A : String) :
    (l.filter (planKeyMatches T A)).length ≤ 1 := by
  induction l with
  | nil => simp
  | cons p ps ih =>
    unfold PlansKeyUnique at h
    rw [List.map_cons, List.nodup_cons] at h
    by_cases hp : planKeyMatches T A p = true
    · have hkey : planKey p = (T, A) := planKey_eq_iff.2 hp
      have hnil : ps.filter (planKeyMatches T A) = [] := by
        rw [List.filter_eq_nil_iff]
        intro q hq hmatch
        exact h.1 (hkey ▸ List.mem_map.2 ⟨q, hq, planKey_eq_iff.2 hmatch⟩)
      simp [List.filter_cons, hp, hnil]
    · simpa [List.filter_cons, hp] using ih h.2

theorem overwriteFirstPlan_filter {T A text : String} {src : PlanSource}
    {now : Nat} {l : List ActionPlanItem}
    (hU : PlansKeyUnique l) (hAny : l.any (planKeyMatches T A) = true) :
    ∃ old, l.filter (planKeyMatches T A) = [old]
      ∧ (overwriteFirstPlan T A text src now l).filter (planKeyMatches T A)
          = [{ old with plan := text, source := src, updatedAt := now }] := by
  induction l with
  | nil => simp at hAny
  | cons p ps ih =>
    unfold PlansKeyUnique at hU
    rw [List.map_cons, List.nodup_cons] at hU
    by_cases hp : planKeyMatches T A p = true
    · refine ⟨p, ?_, ?_⟩
      · have hkey : planKey p = (T, A) := planKey_eq_iff.2 hp
        have hnil : ps.filter (planKeyMatches T A) = [] := by
          rw [List.filter_eq_nil_iff]
          intro q hq hmatch
          exact hU.1 (hkey ▸ List.mem_map.2 ⟨q, hq, planKey_eq_iff.2 hmatch⟩)
        simp [List.filter_cons, hp, hnil]
      · have hkey : planKey p = (T, A) := planKey_eq_iff.2 hp
        have hnil : ps.filter (planKeyMatches T A) = [] := by
          rw [List.filter_eq_nil_iff]
          intro q hq hmatch
          exact hU.1 (hkey ▸ List.mem_map.2 ⟨q, hq, planKey_eq_iff.2 hmatch⟩)
        have hp' : planKeyMatches T A
            { p with plan := text, source := src, updatedAt := now } = true := by
          simpa [planKeyMatches] using hp
        simp [overwriteFirstPlan, hp, List.filter_cons, hp', hnil]
    · have hAny' : ps.any (planKeyMatches T A) = true := by
        simpa [hp] using hAny
      obtain ⟨old, h1, h2⟩ := ih hU.2 hAny'
      exact ⟨old, by simp [List.filter_cons, hp, h1],
        by simp [overwriteFirstPlan, hp, List.filter_cons, h2]⟩

theorem filter_take_eq_nil_of_not_any {l : List ActionPlanItem} {T A : String}
    (h : l.any (planKeyMatches T A) = false) (n : Nat) :
    (l.take n).filter (planKeyMatches T A) = [] := by
  rw [List.filter_eq_nil_iff]
  intro q hq
  exact List.any_eq_false.1 h q ((List.take_sublist n l).subset hq)

theorem evictTid_injective {i j : Nat} (h : evictTid i = evictTid j) : i = j := by
  have hdata : List.replicate i 'a' = List.replicate j 'a' :=
    congrArg String.data h
  simpa using congrArg List.length hdata

theorem mem_evictDesc {p : ActionPlanItem} {n : Nat} (h : p ∈ evictDesc n) :
    ∃ j, j < n ∧ p = evictRec j := by
  induction n with
  | zero => simp [evictDesc] at h
  | succ n ih =>
    rcases (List.mem_cons).1 h with h | h
    · exact ⟨n, Nat.lt_succ_self n, h⟩
    · obtain ⟨j, hj, hp⟩ := ih h
      exact ⟨j, Nat.lt_succ_of_lt hj, hp⟩

theorem mem_take_evictDesc {p : ActionPlanItem} {n m : Nat}
    (h : p ∈ (evictDesc n).take m) :
    ∃ j, j < n ∧ n ≤ m + j ∧ p = evictRec j := by
  induction n generalizing m with
  | zero => simp [evictDesc] at h
  | succ n ih =>
    cases m with
    | zero => simp at h
    | succ m =>
      rw [evictDesc, List.take_succ_cons] at h
      rcases (List.mem_cons).1 h with h | h
      · exact ⟨n, Nat.lt_succ_self n, by omega, h⟩
      · obtain ⟨j, hj, hnm, hp⟩ := ih h
        exact ⟨j, Nat.lt_succ_of_lt hj, by omega, hp⟩

theorem evictState_not_match (a : Nat) :
    (evictState a).any (planKeyMatches (evictTid a) "PO-TAN") = false := by
  rw [List.any_eq_false]
  intro p hp
  obtain ⟨j, hj, _, hp'⟩ := mem_take_evictDesc hp
  subst hp'
  intro hmatch
  simp only [planKeyMatches, evictRec, Bool.and_eq_true, decide_eq_true_eq] at hmatch
  exact absurd (evictTid_injective hmatch.1) (by omega)

theorem evictState_step (a : Nat) :
    upsertActionPlan "PO-TAN" "p" PlanSource.manual (evictTid a) a (evictState a)
      = evictState (a + 1) := by
  unfold upsertActionPlan
  rw [show getMember "PO-TAN" = some
      { id := "PO-TAN", displayName := "PO-TAN", role := "Product Owner",
        department := "Product",
        identityPrompt := "당신은 PO-TAN이다. 비즈니스 가치와 고객 가치 기준으로 우선순위를 결정한다. 수치/가설/검증 기준을 반드시 포함한다.",
        defaultProvider := .openai,
        defaultModel := DEFAULT_OPENAI_CONVERSATION_MODEL } from rfl]
  dsimp only
  rw [if_neg (by decide), evictState_not_match a, if_neg Bool.false_ne_true]
  show (evictRec a :: (evictDesc a).take 220).take 220 = evictState (a + 1)
  rw [show (220 : Nat) = 219 + 1 from rfl, List.take_succ_cons, List.take_take]
  rfl

theorem evictRun (k : Nat) :
    ∀ a, applyUpserts (evictOpsFrom a k) a (evictState a) = evictState (a + k) := by
  induction k with
  | zero => intro a; rfl
  | succ k ih =>
    intro a
    show applyUpserts (evictOp a :: evictOpsFrom (a + 1) k) a (evictState a) = _
    rw [applyUpserts]
    show applyUpserts (evictOpsFrom (a + 1) k) (a + 1)
      (upsertActionPlan "PO-TAN" "p" PlanSource.manual (evictTid a) a (evictState a)) = _
    rw [evictState_step a, ih (a + 1)]
    congr 1
    omega

theorem markPlanExecuted_map_planKey (pid : Nat) (summ : String) (now : Nat)
    (plans : List ActionPlanItem) :
    (markPlanExecuted pid summ now plans).map planKey = plans.map planKey := by
  induction plans with
  | nil => rfl
  | cons p ps ih =>
    by_cases h : p.id = pid
    · simp [markPlanExecuted, h, planKey] at ih ⊢
      exact ih
    · simp [markPlanExecuted, h, planKey] at ih ⊢
      exact ih

theorem upsertActionPlan_map_planKey_of_existing
    (mId p : String) (src : PlanSource) (T : String) (now : Nat)
    (plans : List ActionPlanItem)
    (h : plans.any (planKeyMatches T mId) = true) :
    (upsertActionPlan mId p src T now plans).map planKey = plans.map planKey := by
  unfold upsertActionPlan
  cases getMember mId with
  | none => rfl
  | some member =>
    dsimp only
    by_cases ht : jsTrim p = ""
    · rw [if_pos ht]
    · rw [if_neg ht, if_pos h, overwriteFirstPlan_map_planKey]

theorem upsertActionPlan_preserves_keys_below_cap
    (mId p : String) (src : PlanSource) (T : String) (now : Nat)
    (plans : List ActionPlanItem) (hlen : plans.length < 220)
    {k : String × String} (hk : k ∈ plans.map planKey) :
    k ∈ (upsertActionPlan mId p src T now plans).map planKey := by
  unfold upsertActionPlan
  cases getMember mId with
  | none => exact hk
  | some member =>
    dsimp only
    by_cases ht : jsTrim p = ""
    · rw [if_pos ht]; exact hk
    · rw [if_neg ht]
      by_cases ha : plans.any (planKeyMatches T mId) = true
      · rw [if_pos ha, overwriteFirstPlan_map_planKey]; exact hk
      · rw [if_neg ha]
        rw [List.take_of_length_le (by simp only [List.length_cons]; omega)]
        exact List.mem_cons_of_mem _ hk

theorem upsertActionPlan_latest_of_keyUnique {plans : List ActionPlanItem}
    (hU : PlansKeyUnique plans) (T A text : String) (src : PlanSource)
    (now : Nat) (member : CouncilMember)
    (hm : getMember A = some member) (ht : jsTrim text ≠ "") :
    (plans.any (planKeyMatches T A) = false →
      (upsertActionPlan A text src T now plans).filter (planKeyMatches T A)
        = [{ id := now, threadId := T, memberId := A,
             memberName := member.displayName, plan := jsTrim text, source := src,
             createdAt := now, updatedAt := now }])
    ∧ (plans.any (planKeyMatches T A) = true →
        ∃ old, plans.filter (planKeyMatches T A) = [old]
          ∧ (upsertActionPlan A text src T now plans).filter (planKeyMatches T A)
              = [{ old with plan := jsTrim text, source := src, updatedAt := now }]) := by
  constructor
  · intro hna
    unfold upsertActionPlan
    rw [hm]
    dsimp only
    rw [if_neg ht, hna, if_neg Bool.false_ne_true]
    rw [show (220 : Nat) = 219 + 1 from rfl, List.take_succ_cons]
    rw [List.filter_cons_of_pos (by simp [planKeyMatches])]
    rw [filter_take_eq_nil_of_not_any hna]
  · intro ha
    obtain ⟨old, h1, h2⟩ :=
      @overwriteFirstPlan_filter T A (jsTrim text) src now plans hU ha
    refine ⟨old, h1, ?_⟩
    unfold upsertActionPlan
    rw [hm]
    dsimp only
    rw [if_neg ht, if_pos ha]
    exact h2

/-! ## Claim theorems -/
theorem getMember_id_eq {memberId : String} {m : CouncilMember}
    (h : getMember memberId = some m) : m.id = memberId := by
  have := List.find?_some h
  simpa using this

/-- C4: calling `startWorkflow` with an empty (or whitespace-only) directive,
or while the thread already has a run in progress, is rejected synchronously:
the result state is the input state with only `workflowError` set — phase,
running flag, active-member markers, plan registry, transcript, logs,
reports, messages and thread data are all untouched, and nothing is queued. -/
theorem startWorkflow_reject_no_side_effects (env : Env) (task : String)
    (s : OfficeState) (h : jsTrim task = "" ∨ s.running = true) :
    startWorkflow env task s =
      { s with workflowError :=
          if jsTrim task = "" then "CEO 지시 문장을 입력하세요."
          else "이미 워크플로우가 실행 중입니다." } := by
  unfold startWorkflow
  by_cases h0 : jsTrim task = ""
  · rw [if_pos h0, if_pos h0]
  · rcases h with h | h
    · exact absurd h h0
    · rw [if_neg h0, if_neg h0, if_pos h]

theorem startWorkflow_reject_no_side_effects_witness :
    ((jsTrim "run it" = "" ∨ ({ running := true } : OfficeState).running = true)
      ∧ startWorkflow
          { user := false, proxy := fun _ => { ok := false, status := 500, body := none } }
          "run it" { running := true }
        = { ({ running := true } : OfficeState) with
            workflowError :=
              if jsTrim "run it" = "" then "CEO 지시 문장을 입력하세요."
              else "이미 워크플로우가 실행 중입니다." }) :=
  ⟨Or.inr rfl,
   startWorkflow_reject_no_side_effects
     { user := false, proxy := fun _ => { ok := false, status := 500, body := none } }
     "run it" { running := true } (Or.inr rfl)⟩

/-- C5: an audit trigger that fires stores the window fingerprint; any later
trigger carrying the identical activity window — while the audit is still in
flight or after it completed — schedules no second audit; moreover a trigger
is always suppressed while an audit is in flight and within the 45-second
cooldown measured from the last completed audit. -/
theorem governance_fingerprint_dedup (threadId threadTitle : String)
    (msgs : List OfficeMessage) (turns : List MeetingTurn)
    (now1 : Nat) (running1 : Bool) (g : GovRefs)
    (hmsgs : msgs ≠ [])
    (hsig : govSignature threadId (takeLast 4 msgs) (takeLast 6 turns) ≠ g.signature)
    (hpoll : g.polling = false) (hcool : 45000 ≤ now1 - g.lastRun) :
    ((govObserve true false threadId threadTitle msgs turns now1 running1 g).2
        = some { delayMs := if running1 then 2500 else 7000,
                 context := govContext threadTitle (takeLast 4 msgs) (takeLast 6 turns) }
      ∧ (govObserve true false threadId threadTitle msgs turns now1 running1 g).1
        = { signature := govSignature threadId (takeLast 4 msgs) (takeLast 6 turns),
            polling := true, lastRun := g.lastRun })
    ∧ (∀ (threadTitle2 : String) (now2 : Nat) (running2 : Bool),
        govObserve true false threadId threadTitle2 msgs turns now2 running2
            (govObserve true false threadId threadTitle msgs turns now1 running1 g).1
          = ((govObserve true false threadId threadTitle msgs turns now1 running1 g).1,
             none))
    ∧ (∀ (tDone : Nat) (threadTitle2 : String) (now2 : Nat) (running2 : Bool),
        govObserve true false threadId threadTitle2 msgs turns now2 running2
            (govComplete
              (govObserve true false threadId threadTitle msgs turns now1 running1 g).1
              tDone)
          = (govComplete
              (govObserve true false threadId threadTitle msgs turns now1 running1 g).1
              tDone, none))
    ∧ (∀ (g' : GovRefs) (tid tt : String) (m : List OfficeMessage)
          (t : List MeetingTurn) (n : Nat) (r : Bool), g'.polling = true →
        govObserve true false tid tt m t n r g' = (g', none))
    ∧ (∀ (g' : GovRefs) (tid tt : String) (m : List OfficeMessage)
          (t : List MeetingTurn) (n : Nat) (r : Bool), n - g'.lastRun < 45000 →
        govObserve true false tid tt m t n r g' = (g', none)) := by
  have hlen : ¬((takeLast 4 msgs).length = 0 ∧ (takeLast 6 turns).length = 0) := by
    intro hc
    have h1 : 0 < msgs.length := List.length_pos.2 hmsgs
    have : (takeLast 4 msgs).length = msgs.length - (msgs.length - 4) := by
      simp [takeLast]
    omega
  have hfire : govObserve true false threadId threadTitle msgs turns now1 running1 g
      = ({ signature := govSignature threadId (takeLast 4 msgs) (takeLast 6 turns),
           polling := true, lastRun := g.lastRun },
         some { delayMs := if running1 then 2500 else 7000,
                context := govContext threadTitle (takeLast 4 msgs) (takeLast 6 turns) }) := by
    unfold govObserve
    rw [if_neg (by simp)]
    rw [if_neg hlen, if_neg hsig]
    rw [if_neg (by simp [hpoll]; omega)]
  refine ⟨⟨by rw [hfire], by rw [hfire]⟩, ?_, ?_, ?_, ?_⟩
  · intro threadTitle2 now2 running2
    rw [hfire]
    unfold govObserve
    rw [if_neg (by simp), if_neg hlen, if_pos rfl]
  · intro tDone threadTitle2 now2 running2
    rw [hfire]
    unfold govObserve
    rw [if_neg (by simp), if_neg hlen]
    rw [if_pos (by simp [govComplete])]
  · intro g' tid tt m t n r hp
    unfold govObserve
    rw [if_neg (by simp)]
    by_cases hl : (takeLast 4 m).length = 0 ∧ (takeLast 6 t).length = 0
    · rw [if_pos hl]
    · rw [if_neg hl]
      by_cases hs : govSignature tid (takeLast 4 m) (takeLast 6 t) = g'.signature
      · rw [if_pos hs]
      · rw [if_neg hs, if_pos (by simp [hp])]
  · intro g' tid tt m t n r hc
    unfold govObserve
    rw [if_neg (by simp)]
    by_cases hl : (takeLast 4 m).length = 0 ∧ (takeLast 6 t).length = 0
    · rw [if_pos hl]
    · rw [if_neg hl]
      by_cases hs : govSignature tid (takeLast 4 m) (takeLast 6 t) = g'.signature
      · rw [if_pos hs]
      · rw [if_neg hs, if_pos (by simp; omega)]

theorem governance_fingerprint_dedup_witness :
    (govObserve true false "t" "title"
        [{ id := 1, threadId := "t", senderId := "CEO-HOBBY", senderName := "CEO",
           senderRole := "r", kind := .chat, text := "hello",
           targetIds := ["PM-TAN"], attachments := [], createdAt := 10,
           source := .local }] [] 45000 false {}).2
      = some { delayMs := 7000,
               context := govContext "title"
                 (takeLast 4
                   [{ id := 1, threadId := "t", senderId := "CEO-HOBBY",
                      senderName := "CEO", senderRole := "r", kind := .chat,
                      text := "hello", targetIds := ["PM-TAN"], attachments := [],
                      createdAt := 10, source := .local }])
                 (takeLast 6 [])} := by
  have h := governance_fingerprint_dedup "t" "title"
    [{ id := 1, threadId := "t", senderId := "CEO-HOBBY", senderName := "CEO",
       senderRole := "r", kind := .chat, text := "hello",
       targetIds := ["PM-TAN"], attachments := [], createdAt := 10,
       source := .local }] [] 45000 false {}
    (by simp) (by decide) rfl (by decide)
  simpa using h.1.1

theorem requestLlmText_snd (env : Env) (req : LlmTextRequest) (s : OfficeState) :
    (requestLlmText env req s).2
      = { s with llmCalls := s.llmCalls + 1, llmLog := req :: s.llmLog } := by
  unfold requestLlmText
  dsimp only
  split
  · rfl
  · split
    · rfl
    · split <;> rfl

theorem collabTurnNote_snd_meetingTurns (env : Env)
    (task strategy mgmt auth : String) (member : CouncilMember)
    (memberId pd : String) (s : OfficeState) :
    (collabTurnNote env task strategy mgmt auth member memberId pd s).2.meetingTurns
      = s.meetingTurns := by
  unfold collabTurnNote
  split
  · rfl
  · rcases h : requestLlmText env
      (collabTurnRequest env task strategy mgmt auth member memberId pd) s
      with ⟨r, s'⟩
    have hs := requestLlmText_snd env
      (collabTurnRequest env task strategy mgmt auth member memberId pd) s
    rw [h] at hs
    simp only at hs
    cases r <;> simp [hs]

theorem collabLoop_notes_mem (env : Env) (task strategy mgmt sid auth : String) :
    ∀ (members : List String) (pd : String) (s : OfficeState),
      ∀ n ∈ (collabLoop env task strategy mgmt sid auth members pd s).1,
        n.memberId ∈ members := by
  intro members
  induction members with
  | nil => intro pd s n hn; simp [collabLoop] at hn
  | cons m rest ih =>
    intro pd s n hn
    rw [collabLoop] at hn
    cases hm : getMember m with
    | none =>
      rw [hm] at hn
      exact List.mem_cons_of_mem _ (ih _ _ n hn)
    | some member =>
      rw [hm] at hn
      simp only at hn
      rcases (List.mem_cons).1 hn with h | h
      · subst h; exact List.mem_cons_self _ _
      · exact List.mem_cons_of_mem _ (ih _ _ n h)

theorem collabLoop_notes_length (env : Env) (task strategy mgmt sid auth : String) :
    ∀ (members : List String) (pd : String) (s : OfficeState),
      (collabLoop env task strategy mgmt sid auth members pd s).1.length
        ≤ members.length := by
  intro members
  induction members with
  | nil => intro pd s; simp [collabLoop]
  | cons m rest ih =>
    intro pd s
    rw [collabLoop]
    cases hm : getMember m with
    | none =>
      exact Nat.le_succ_of_le (ih _ _)
    | some member =>
      simp only [List.length_cons]
      exact Nat.succ_le_succ (ih _ _)

theorem collabLoop_transcript_length (env : Env)
    (task strategy mgmt sid auth : String) :
    ∀ (members : List String) (pd : String) (s : OfficeState),
      (collabLoop env task strategy mgmt sid auth members pd s).2.1.length
        ≤ members.length := by
  intro members
  induction members with
  | nil => intro pd s; simp [collabLoop]
  | cons m rest ih =>
    intro pd s
    rw [collabLoop]
    cases hm : getMember m with
    | none =>
      exact Nat.le_succ_of_le (ih _ _)
    | some member =>
      simp only [List.length_cons]
      exact Nat.succ_le_succ (ih _ _)

theorem collabLoop_transcript_speaker (env : Env)
    (task strategy mgmt sid auth : String) :
    ∀ (members : List String) (pd : String) (s : OfficeState),
      ∀ t ∈ (collabLoop env task strategy mgmt sid auth members pd s).2.1,
        t.speakerId ∈ members := by
  intro members
  induction members with
  | nil => intro pd s t ht; simp [collabLoop] at ht
  | cons m rest ih =>
    intro pd s t ht
    rw [collabLoop] at ht
    cases hm : getMember m with
    | none =>
      rw [hm] at ht
      exact List.mem_cons_of_mem _ (ih _ _ t ht)
    | some member =>
      rw [hm] at ht
      simp only at ht
      rcases (List.mem_cons).1 ht with h | h
      · subst h
        simp [getMember_id_eq hm]
      · exact List.mem_cons_of_mem _ (ih _ _ t h)

theorem collabLoop_meetingTurns (env : Env) (task strategy mgmt sid auth : String) :
    ∀ (members : List String) (pd : String) (s : OfficeState),
      ∀ t ∈ (collabLoop env task strategy mgmt sid auth members pd s).2.2.meetingTurns,
        t ∈ s.meetingTurns ∨ t.speakerId ∈ members := by
  intro members
  induction members with
  | nil => intro pd s t ht; rw [collabLoop] at ht; exact Or.inl ht
  | cons m rest ih =>
    intro pd s t ht
    rw [collabLoop] at ht
    cases hm : getMember m with
    | none =>
      rw [hm] at ht
      rcases ih _ _ t ht with h | h
      · exact Or.inl h
      · exact Or.inr (List.mem_cons_of_mem _ h)
    | some member =>
      rw [hm] at ht
      simp only at ht
      rcases ih _ _ t ht with h | h
      · -- t survived the recursive call: it is in the state right after this turn
        rw [appendLog, appendMeetingTurnS] at h
        simp only at h
        have h' := (List.take_sublist _ _).subset h
        rcases (List.mem_cons).1 h' with h2 | h2
        · subst h2
          simp only
          exact Or.inr (by simp [getMember_id_eq hm])
        · rw [collabTurnNote_snd_meetingTurns] at h2
          exact Or.inl h2
      · exact Or.inr (List.mem_cons_of_mem _ h)

/-- C10: a collaboration session processes at most the first 8 entries of the
supplied participant list: the transcript and note list never exceed 8
entries, every note and transcript turn belongs to one of the first 8
participants, and every meeting turn recorded in the state either predates
the session or was spoken by one of the first 8 participants — so
participants beyond the eighth contribute no note, no turn, and (since
workflow upserts are driven by the note list) no ActionPlan upsert. -/
theorem runCollaboration_caps_at_8 (env : Env) (task strategy mgmt : String)
    (participants : List String) (s : OfficeState) :
    (runCollaboration env task strategy participants mgmt s).1.transcript.length ≤ 8
    ∧ (runCollaboration env task strategy participants mgmt s).1.notes.length ≤ 8
    ∧ (∀ n ∈ (runCollaboration env task strategy participants mgmt s).1.notes,
        n.memberId ∈ participants.take 8)
    ∧ (∀ t ∈ (runCollaboration env task strategy participants mgmt s).1.transcript,
        t.speakerId ∈ participants.take 8)
    ∧ (∀ t ∈ (runCollaboration env task strategy participants mgmt s).2.meetingTurns,
        t ∈ s.meetingTurns ∨ t.speakerId ∈ participants.take 8) := by
  unfold runCollaboration
  simp only
  refine ⟨?_, ?_, ?_, ?_, ?_⟩
  · exact le_trans (collabLoop_transcript_length _ _ _ _ _ _ _ _ _)
      (List.length_take_le 8 participants)
  · exact le_trans (collabLoop_notes_length _ _ _ _ _ _ _ _ _)
      (List.length_take_le 8 participants)
  · intro n hn
    exact collabLoop_notes_mem _ _ _ _ _ _ _ _ _ n hn
  · intro t ht
    exact collabLoop_transcript_speaker _ _ _ _ _ _ _ _ _ t ht
  · intro t ht
    rcases collabLoop_meetingTurns _ _ _ _ _ _ _ _ _ t ht with h | h
    · exact Or.inl h
    · exact Or.inr h

theorem runCollaboration_caps_at_8_witness :
    (runCollaboration
        { user := false, proxy := fun _ => { ok := false, status := 500, body := none } }
        "t" "s"
        ["ATTENDANT-TAN", "PO-TAN", "PM-TAN", "DEV-TAN", "UX-TAN", "QA-TAN",
         "BA-TAN", "LEGAL-TAN", "MARKETING-TAN", "CS-TAN"] "m" {}).1.transcript.length ≤ 8 :=
  (runCollaboration_caps_at_8
    { user := false, proxy := fun _ => { ok := false, status := 500, body := none } }
    "t" "s" "m"
    ["ATTENDANT-TAN", "PO-TAN", "PM-TAN", "DEV-TAN", "UX-TAN", "QA-TAN",
     "BA-TAN", "LEGAL-TAN", "MARKETING-TAN", "CS-TAN"] {}).1

/-- C7: whenever the brainstorming dispatch call returned a text that
`tryParseJson` cannot parse, `runBrainstorm` does not abort: it returns the
raw response text as the strategy together with the fixed default
participant team and canned handoff, for every unparseable response. -/
theorem brainstorm_parse_failure_never_aborts (env : Env) (task text : String)
    (s : OfficeState)
    (hauth : getProxyAuthToken env ≠ "")
    (hok : (requestLlmText env (brainstormRequest env task) s).1 = .ok text)
    (hparse : tryParseJson env.jsonParse text = none) :
    runBrainstorm env task s
      = (.ok { strategy := text, participants := DEFAULT_COLLABORATION_TEAM,
               handoff := "협업실 세션 후 담당자가 CEO에게 보고" },
         (requestLlmText env (brainstormRequest env task) s).2) := by
  unfold runBrainstorm
  rw [if_neg hauth]
  rcases hr : requestLlmText env (brainstormRequest env task) s with ⟨r, s'⟩
  rw [hr] at hok
  simp only at hok
  subst hok
  simp only [hparse]

theorem brainstorm_parse_failure_witness :
    runBrainstorm onlineStubEnv "go" {}
      = (.ok { strategy := "not json", participants := DEFAULT_COLLABORATION_TEAM,
               handoff := "협업실 세션 후 담당자가 CEO에게 보고" },
         (requestLlmText onlineStubEnv (brainstormRequest onlineStubEnv "go") {}).2) :=
  brainstorm_parse_failure_never_aborts onlineStubEnv "go" "not json" {}
    (by decide) (by rfl) rfl

/-- C3 (amended): the retry-once-without-augmentation fallback is implemented
only by the openai backend: (a) an openai call with web-search augmentation
whose first attempt fails is retried exactly once with the tool removed;
(b) an openai call without augmentation that fails is never retried and the
error is surfaced; (c) the gemini backend attaches the augmentation to its
request but surfaces a failure immediately, with exactly one attempt;
(d) anthropic and xai (which never read the flag) and gemini make at most
one attempt per call, and openai at most two. -/
theorem dispatch_retry_policy (env : DispatchEnv) (body : LlmRequestBody) :
    (isConfiguredSecret env.openaiKey = true → body.useWebSearch = true →
      (env.netOpenAI (openAIEndpointOf body) (openAIPayloadOf body)).ok = false →
      (requestOpenAIText env body).2
        = [openAIPayloadOf body, { openAIPayloadOf body with tools := false }])
    ∧ (isConfiguredSecret env.openaiKey = true → body.useWebSearch = false →
      (env.netOpenAI (openAIEndpointOf body) (openAIPayloadOf body)).ok = false →
      (requestOpenAIText env body).2 = [openAIPayloadOf body]
      ∧ (requestOpenAIText env body).1
        = .error ("OpenAI request failed ("
            ++ toString (env.netOpenAI (openAIEndpointOf body) (openAIPayloadOf body)).status
            ++ "): "
            ++ (env.netOpenAI (openAIEndpointOf body) (openAIPayloadOf body)).errText))
    ∧ (isConfiguredSecret env.geminiKey = true →
      (env.netGemini (geminiEndpointOf body) (geminiPayloadOf body)).ok = false →
      (geminiPayloadOf body).tools = body.useWebSearch
      ∧ (requestGeminiText env body).2 = [geminiPayloadOf body]
      ∧ (requestGeminiText env body).1
        = .error ("Gemini text request failed ("
            ++ toString (env.netGemini (geminiEndpointOf body) (geminiPayloadOf body)).status
            ++ "): "
            ++ (env.netGemini (geminiEndpointOf body) (geminiPayloadOf body)).errText))
    ∧ ((requestAnthropicText env body).2.length ≤ 1
      ∧ (requestXAIText env body).2.length ≤ 1
      ∧ (requestGeminiText env body).2.length ≤ 1
      ∧ (requestOpenAIText env body).2.length ≤ 2) := by
  refine ⟨?_, ?_, ?_, ?_, ?_, ?_, ?_⟩
  · intro hk hw h1
    unfold requestOpenAIText
    simp only [hk, Bool.not_true, Bool.false_eq_true, if_false, h1, hw, if_true]
    split
    · split <;> rfl
    · rfl
  · intro hk hw h1
    unfold requestOpenAIText
    simp only [hk, Bool.not_true, Bool.false_eq_true, if_false, h1, hw, if_true]
    exact ⟨trivial, trivial⟩
  · intro hk h1
    unfold requestGeminiText
    simp only [hk, Bool.not_true, Bool.false_eq_true, if_false, h1,
      Bool.not_false, if_true]
    refine ⟨?_, ?_, ?_⟩ <;> simp [geminiPayloadOf]
  · unfold requestAnthropicText
    dsimp only
    split
    · simp
    · repeat' split
      all_goals simp
  · unfold requestXAIText
    dsimp only
    split
    · simp
    · repeat' split
      all_goals simp
  · unfold requestGeminiText
    dsimp only
    split
    · simp
    · repeat' split
      all_goals simp
  · unfold requestOpenAIText
    dsimp only
    split
    · simp
    · repeat' split
      all_goals simp

/-- C3 (counterexample): a gemini dispatch call with web-search augmentation
enabled whose backend call fails makes exactly one attempt — the payload
carries the augmentation, no retry with the augmentation removed happens, and
the error is surfaced immediately.  The claim's uniform retry rule therefore
fails on the gemini backend. -/
theorem gemini_augmented_failure_not_retried :
    requestGeminiText geminiFailEnv { input := some "hi", useWebSearch := true }
      = (.error "Gemini text request failed (500): boom",
         [{ model := "gemini-2.5-pro", promptText := "hi", tools := true }]) := by
  rfl

theorem dispatch_retry_policy_witness :
    (requestOpenAIText geminiFailEnv { input := some "hi", useWebSearch := true }).2
      = [openAIPayloadOf { input := some "hi", useWebSearch := true },
         { openAIPayloadOf { input := some "hi", useWebSearch := true } with
             tools := false }] :=
  (dispatch_retry_policy geminiFailEnv
    { input := some "hi", useWebSearch := true }).1 (by decide) rfl rfl

/-- C1 (amended): starting from an empty registry, after any sequence of
upserts followed by an effective upsert for key `(T, A)` (one naming a roster
member and carrying non-whitespace text), the registry keys are unique — at
most one record per `(threadId, memberId)` pair — and the record for `(T, A)`
holds the trimmed text, source and timestamp of that most recent upsert: an
existing record is overwritten in place keeping its `createdAt`, and a fresh
record has `createdAt = updatedAt`. -/
theorem plan_registry_unique_latest (ops : List UpsertOp) (c0 now : Nat)
    (T A text : String) (src : PlanSource) (member : CouncilMember)
    (hm : getMember A = some member) (ht : jsTrim text ≠ "") :
    PlansKeyUnique (upsertActionPlan A text src T now (applyUpserts ops c0 []))
    ∧ (∀ T' A', ((upsertActionPlan A text src T now (applyUpserts ops c0 [])).filter
          (planKeyMatches T' A')).length ≤ 1)
    ∧ ((applyUpserts ops c0 []).any (planKeyMatches T A) = false →
        (upsertActionPlan A text src T now (applyUpserts ops c0 [])).filter
            (planKeyMatches T A)
          = [{ id := now, threadId := T, memberId := A,
               memberName := member.displayName, plan := jsTrim text,
               source := src, createdAt := now, updatedAt := now }])
    ∧ ((applyUpserts ops c0 []).any (planKeyMatches T A) = true →
        ∃ old, (applyUpserts ops c0 []).filter (planKeyMatches T A) = [old]
          ∧ (upsertActionPlan A text src T now (applyUpserts ops c0 [])).filter
                (planKeyMatches T A)
              = [{ old with plan := jsTrim text, source := src, updatedAt := now }])
    := by
  have hU : PlansKeyUnique (applyUpserts ops c0 []) :=
    plansKeyUnique_applyUpserts ops c0 [] (by simp [PlansKeyUnique])
  have hU' := plansKeyUnique_upsertActionPlan A text src T now _ hU
  have hmain := upsertActionPlan_latest_of_keyUnique hU T A text src now member hm ht
  exact ⟨hU', fun T' A' => filter_length_le_one_of_keyUnique hU' T' A',
    hmain.1, hmain.2⟩

theorem plan_registry_unique_latest_witness :
    PlansKeyUnique (upsertActionPlan "PO-TAN" " new plan " PlanSource.workflow "t" 7
      (applyUpserts
        [{ memberId := "PO-TAN", plan := "old", source := .manual, threadId := "t" }]
        0 [])) :=
  (plan_registry_unique_latest
    [{ memberId := "PO-TAN", plan := "old", source := .manual, threadId := "t" }]
    0 7 "t" "PO-TAN" " new plan " .workflow
    { id := "PO-TAN", displayName := "PO-TAN", role := "Product Owner",
      department := "Product",
      identityPrompt := "당신은 PO-TAN이다. 비즈니스 가치와 고객 가치 기준으로 우선순위를 결정한다. 수치/가설/검증 기준을 반드시 포함한다.",
      defaultProvider := .openai,
      defaultModel := DEFAULT_OPENAI_CONVERSATION_MODEL }
    rfl (by decide)).1

/-- C1 (counterexample): an upsert whose supplied text carries surrounding
whitespace stores the trimmed text, not the text as supplied — the stored
plan after upserting `" hello "` is `"hello"`. -/
theorem upsert_stores_trimmed_text :
    (upsertActionPlan "PO-TAN" " hello " PlanSource.manual "t" 0 []).map
        (fun p => p.plan) = ["hello"]
    ∧ " hello " ≠ "hello" := by
  exact ⟨rfl, by decide⟩

/-- C9 (amended): below the 220-record capacity bound an upsert never drops a
key; an upsert that overwrites an existing record for its key preserves the
key list exactly (at any size); and a plan execution (`markExecuted`)
preserves the key list exactly.  Only the creation branch at the 220-record
cap can evict (see the counterexample). -/
theorem plan_registry_no_removal_below_cap (plans : List ActionPlanItem)
    (mId p : String) (src : PlanSource) (T : String) (now : Nat)
    (k : String × String) :
    (k ∈ plans.map planKey → plans.length < 220 →
      k ∈ (upsertActionPlan mId p src T now plans).map planKey)
    ∧ (plans.any (planKeyMatches T mId) = true →
        (upsertActionPlan mId p src T now plans).map planKey = plans.map planKey)
    ∧ (∀ (pid : Nat) (summ : String),
        (markPlanExecuted pid summ now plans).map planKey = plans.map planKey) := by
  refine ⟨?_, ?_, ?_⟩
  · intro hk hlen
    exact upsertActionPlan_preserves_keys_below_cap mId p src T now plans hlen hk
  · intro h
    exact upsertActionPlan_map_planKey_of_existing mId p src T now plans h
  · intro pid summ
    exact markPlanExecuted_map_planKey pid summ now plans

theorem plan_registry_no_removal_below_cap_witness :
    ("t", "PO-TAN") ∈ (upsertActionPlan "PM-TAN" "x" PlanSource.manual "t" 3
      [{ id := 0, threadId := "t", memberId := "PO-TAN", memberName := "PO-TAN",
         plan := "p", source := .manual, createdAt := 0, updatedAt := 0 }]).map planKey :=
  (plan_registry_no_removal_below_cap
    [{ id := 0, threadId := "t", memberId := "PO-TAN", memberName := "PO-TAN",
       plan := "p", source := .manual, createdAt := 0, updatedAt := 0 }]
    "PM-TAN" "x" .manual "t" 3 ("t", "PO-TAN")).1 (by decide) (by decide)

theorem evictState_221_no_tid0 :
    (evictState 221).any (planKeyMatches (evictTid 0) "PO-TAN") = false := by
  rw [List.any_eq_false]
  intro p hp
  obtain ⟨j, hj, hge, hp'⟩ := mem_take_evictDesc hp
  subst hp'
  intro hmatch
  simp only [planKeyMatches, evictRec, Bool.and_eq_true, decide_eq_true_eq] at hmatch
  exact absurd (evictTid_injective hmatch.1) (by omega)

/-- C9 (counterexample): a concrete sequence of 221 upserts, each creating a
plan for a distinct `(threadId, memberId)` key, in which the first key holds
a record after its upsert but no longer holds any record at the end — the
221st creation evicted it through the registry's `slice(0, 220)` bound. -/
theorem plan_record_evicted_at_cap :
    (applyUpserts (evictOpsFrom 0 1) 0 []).any
        (planKeyMatches (evictTid 0) "PO-TAN") = true
    ∧ (applyUpserts (evictOpsFrom 0 221) 0 []).any
        (planKeyMatches (evictTid 0) "PO-TAN") = false := by
  constructor
  · show (applyUpserts (evictOpsFrom 0 1) 0 (evictState 0)).any
      (planKeyMatches (evictTid 0) "PO-TAN") = true
    rw [evictRun 1 0]
    decide
  · show (applyUpserts (evictOpsFrom 0 221) 0 (evictState 0)).any
      (planKeyMatches (evictTid 0) "PO-TAN") = false
    rw [evictRun 221 0]
    exact evictState_221_no_tid0

theorem collabTurnNote_online_snd (env : Env) (task strategy mgmt auth : String)
    (member : CouncilMember) (memberId pd : String) (s : OfficeState)
    (hauth : auth ≠ "") :
    (collabTurnNote env task strategy mgmt auth member memberId pd s).2
      = { s with llmCalls := s.llmCalls + 1,
                 llmLog := collabTurnRequest env task strategy mgmt auth member
                   memberId pd :: s.llmLog } := by
  unfold collabTurnNote
  rw [if_neg hauth]
  rcases hr : requestLlmText env
    (collabTurnRequest env task strategy mgmt auth member memberId pd) s
    with ⟨r, s'⟩
  have hs := requestLlmText_snd env
    (collabTurnRequest env task strategy mgmt auth member memberId pd) s
  rw [hr] at hs
  simp only at hs
  cases r <;> simpa using hs

theorem collabLoop_cons_some (env : Env) (task strategy mgmt sid auth : String)
    (m : String) (member : CouncilMember) (rest : List String) (pd : String)
    (s : OfficeState) (hm : getMember m = some member) :
    collabLoop env task strategy mgmt sid auth (m :: rest) pd s
      = ((⟨m, (collabTurnNote env task strategy mgmt auth member m pd s).1⟩
            : CollaborationNote)
          :: (collabLoop env task strategy mgmt sid auth rest
              (pd ++ member.id ++ ": "
                ++ (collabTurnNote env task strategy mgmt auth member m pd s).1
                ++ "\n\n")
              (collabAfterTurn env task strategy mgmt sid auth member m pd s)).1,
         collabTurnRecord sid member
             (collabTurnNote env task strategy mgmt auth member m pd s).1
             (collabTurnNote env task strategy mgmt auth member m pd s).2
          :: (collabLoop env task strategy mgmt sid auth rest
              (pd ++ member.id ++ ": "
                ++ (collabTurnNote env task strategy mgmt auth member m pd s).1
                ++ "\n\n")
              (collabAfterTurn env task strategy mgmt sid auth member m pd s)).2.1,
         (collabLoop env task strategy mgmt sid auth rest
              (pd ++ member.id ++ ": "
                ++ (collabTurnNote env task strategy mgmt auth member m pd s).1
                ++ "\n\n")
              (collabAfterTurn env task strategy mgmt sid auth member m pd s)).2.2) := by
  rw [collabLoop, hm]
  simp only [collabAfterTurn, collabTurnRecord]

theorem appendLog_llmLog (ph : WorkflowPhase) (msg : String) (s : OfficeState) :
    (appendLog ph msg s).llmLog = s.llmLog := rfl

theorem appendMeetingTurnS_llmLog (tid sid : String) (room : Room)
    (spId spName text : String) (src : TurnSource) (s : OfficeState) :
    (appendMeetingTurnS tid sid room spId spName text src s).llmLog = s.llmLog := rfl

theorem collabAfterTurn_llmLog (env : Env) (task strategy mgmt sid auth : String)
    (member : CouncilMember) (memberId pd : String) (s : OfficeState)
    (hauth : auth ≠ "") :
    (collabAfterTurn env task strategy mgmt sid auth member memberId pd s).llmLog
      = collabTurnRequest env task strategy mgmt auth member memberId pd
          :: s.llmLog := by
  unfold collabAfterTurn
  rw [appendLog_llmLog, appendMeetingTurnS_llmLog]
  simp only [collabTurnNote_online_snd env task strategy mgmt auth member memberId pd s hauth]

theorem strAppend_nn_ne_empty (a : String) : a ++ "\n\n" ≠ "" := by
  intro h
  have hd := congrArg String.data h
  rw [String.data_append] at hd
  simp at hd

theorem jsOr_of_ne (a b : String) (h : a ≠ "") : jsOr a b = a := by
  rw [jsOr, if_neg h]

theorem collabLoop_nil (env : Env) (task strategy mgmt sid auth pd : String)
    (s : OfficeState) :
    collabLoop env task strategy mgmt sid auth [] pd s = ([], [], s) := rfl

/-- C2: in an online collaboration session with known participants
`[P1, P2, P3]` in that order, the session produces exactly one note per
participant, and the generation request sent for P3 is on the dispatch log
and its input contains P1's and P2's notes verbatim (where a note is the
dispatch reply or, for a failed call, the failure-substitute string) —
because each turn's note is appended to the accumulating prior-dialogue
block before the next turn's input is built, and the loop is sequential. -/
theorem collaboration_sequential_dependency (env : Env)
    (task strategy managementContext : String) (p1 p2 p3 : String)
    (m1 m2 m3 : CouncilMember) (s : OfficeState)
    (h1 : getMember p1 = some m1) (h2 : getMember p2 = some m2)
    (h3 : getMember p3 = some m3)
    (hauth : getProxyAuthToken env ≠ "") :
    ∃ n1 n2 n3 r3,
      (runCollaboration env task strategy [p1, p2, p3] managementContext s).1.notes
        = [⟨p1, n1⟩, ⟨p2, n2⟩, ⟨p3, n3⟩]
      ∧ r3 ∈ (runCollaboration env task strategy [p1, p2, p3]
          managementContext s).2.llmLog
      ∧ r3 = collabTurnRequest env task strategy managementContext
          (getProxyAuthToken env) m3 p3
          ((if managementContext = "" then ""
            else "PO/PM 관리 배정안:\n" ++ managementContext ++ "\n\n")
            ++ p1 ++ ": " ++ n1 ++ "\n\n" ++ p2 ++ ": " ++ n2 ++ "\n\n")
      ∧ strContains r3.input n1
      ∧ strContains r3.input n2 := by
  have hid1 := getMember_id_eq h1
  have hid2 := getMember_id_eq h2
  have hid3 := getMember_id_eq h3
  unfold runCollaboration
  simp only [show ([p1, p2, p3].take 8) = [p1, p2, p3] from rfl]
  rw [collabLoop_cons_some env task strategy managementContext _ _ p1 m1 [p2, p3]
    _ _ h1]
  rw [collabLoop_cons_some env task strategy managementContext _ _ p2 m2 [p3]
    _ _ h2]
  rw [collabLoop_cons_some env task strategy managementContext _ _ p3 m3 []
    _ _ h3]
  rw [collabLoop_nil]
  rw [hid1, hid2]
  dsimp only
  refine ⟨_, _, _, _, rfl, ?_, rfl, ?_, ?_⟩
  · rw [collabAfterTurn_llmLog _ _ _ _ _ _ _ _ _ _ hauth]
    exact List.mem_cons_self _ _
  · simp only [collabTurnRequest]
    rw [jsOr_of_ne _ _ (strAppend_nn_ne_empty _)]
    simp only [jsJoin]
    exact strContains_append_left _ (strContains_append_left _
      (strContains_append_left _ (strContains_append_left _
        (strContains_append_right _ (strContains_append_right _
          (strContains_append_right _ (strContains_append_right _
            (strContains_append_right _ (strContains_append_right _
              (strContains_append_right _
                (strContains_append_left _ (strContains_self _))))))))))))
  · simp only [collabTurnRequest]
    rw [jsOr_of_ne _ _ (strAppend_nn_ne_empty _)]
    simp only [jsJoin]
    exact strContains_append_left _ (strContains_append_left _
      (strContains_append_left _ (strContains_append_left _
        (strContains_append_right _ (strContains_append_right _
          (strContains_append_right _ (strContains_append_left _
            (strContains_self _))))))))

theorem collaboration_sequential_dependency_witness :
    ∃ n1 n2 n3 r3,
      (runCollaboration onlineStubEnv "t" "s" ["PO-TAN", "PM-TAN", "DEV-TAN"]
          "m" {}).1.notes
        = [⟨"PO-TAN", n1⟩, ⟨"PM-TAN", n2⟩, ⟨"DEV-TAN", n3⟩]
      ∧ r3 ∈ (runCollaboration onlineStubEnv "t" "s" ["PO-TAN", "PM-TAN", "DEV-TAN"]
          "m" {}).2.llmLog
      ∧ r3 = collabTurnRequest onlineStubEnv "t" "s" "m"
          (getProxyAuthToken onlineStubEnv)
          { id := "DEV-TAN", displayName := "DEV-TAN", role := "Engineering Lead",
            department := "Engineering",
            identityPrompt := "당신은 DEV-TAN이다. 품질과 아키텍처 무결성을 최우선으로 둔다. 구현 계획은 모호성이 없어야 하며 테스트 전략을 포함한다. 또한 GitHub 소스와 배포 버전의 정합성을 지속 점검하고 불일치 시 즉시 복구 계획을 보고한다.",
            defaultProvider := .openai,
            defaultModel := DEFAULT_OPENAI_DEV_MODEL }
          "DEV-TAN"
          ((if "m" = "" then "" else "PO/PM 관리 배정안:\n" ++ "m" ++ "\n\n")
            ++ "PO-TAN" ++ ": " ++ n1 ++ "\n\n" ++ "PM-TAN" ++ ": " ++ n2 ++ "\n\n")
      ∧ strContains r3.input n1
      ∧ strContains r3.input n2 :=
  collaboration_sequential_dependency onlineStubEnv "t" "s" "m"
    "PO-TAN" "PM-TAN" "DEV-TAN"
    { id := "PO-TAN", displayName := "PO-TAN", role := "Product Owner",
      department := "Product",
      identityPrompt := "당신은 PO-TAN이다. 비즈니스 가치와 고객 가치 기준으로 우선순위를 결정한다. 수치/가설/검증 기준을 반드시 포함한다.",
      defaultProvider := .openai,
      defaultModel := DEFAULT_OPENAI_CONVERSATION_MODEL }
    { id := "PM-TAN", displayName := "PM-TAN", role := "Project Manager",
      department := "Product",
      identityPrompt := "당신은 PM-TAN이다. 일정, 병목, 공정률을 관리한다. 단계 전환 조건과 마감 리스크를 명확히 제시한다.",
      defaultProvider := .openai,
      defaultModel := DEFAULT_OPENAI_CONVERSATION_MODEL }
    { id := "DEV-TAN", displayName := "DEV-TAN", role := "Engineering Lead",
      department := "Engineering",
      identityPrompt := "당신은 DEV-TAN이다. 품질과 아키텍처 무결성을 최우선으로 둔다. 구현 계획은 모호성이 없어야 하며 테스트 전략을 포함한다. 또한 GitHub 소스와 배포 버전의 정합성을 지속 점검하고 불일치 시 즉시 복구 계획을 보고한다.",
      defaultProvider := .openai,
      defaultModel := DEFAULT_OPENAI_DEV_MODEL }
    {} rfl rfl rfl (by decide)

/-- C8: an accepted `startWorkflow` run always terminates in the idle state,
on both the success and the failure path: phase is forced back to `idle`, the
running flag and the active-member markers are cleared (so the guard accepts
a subsequent `startWorkflow` on the same thread), and when the body threw,
the single thrown message is surfaced as the user-visible `workflowError`
and logged as the newest activity-log entry. -/
theorem startWorkflow_terminal_idle (env : Env) (task : String) (s : OfficeState)
    (htask : jsTrim task ≠ "") (hrun : s.running = false) :
    (startWorkflow env task s).phase = .idle
    ∧ (startWorkflow env task s).running = false
    ∧ (startWorkflow env task s).activeMembers = []
    ∧ (∀ msg sf,
        runWorkflowBody env (jsTrim task)
            (updateThreadTitle s.activeThreadId
              (if (jsTrim task).length > 36 then
                jsTrim ⟨(jsTrim task).data.take 36⟩ ++ "..."
               else jsTrim task)
              { s with workflowError := "", running := true })
          = .error (msg, sf) →
        (startWorkflow env task s).workflowError = msg
        ∧ ((startWorkflow env task s).activityLogs.head?.map (fun l => l.message))
            = some ("워크플로우 실패: " ++ msg)) := by
  unfold startWorkflow
  rw [if_neg htask, if_neg (by simp [hrun])]
  dsimp only
  rcases hb : runWorkflowBody env (jsTrim task)
      (updateThreadTitle s.activeThreadId
        (if (jsTrim task).length > 36 then
          jsTrim ⟨(jsTrim task).data.take 36⟩ ++ "..."
         else jsTrim task)
        { s with workflowError := "", running := true })
    with e | s'
  · rcases e with ⟨msg0, sf0⟩
    refine ⟨by simp [setPhase, appendLog], by simp [setPhase, appendLog],
      by simp [setPhase, appendLog], ?_⟩
    intro msg sf he
    simp only [Except.error.injEq, Prod.mk.injEq] at he
    obtain ⟨hmsg, _⟩ := he
    subst hmsg
    constructor
    · simp [setPhase, appendLog]
    · simp [setPhase, appendLog]
  · refine ⟨by simp [finishWorkflowRun, setPhase], by simp [finishWorkflowRun],
      by simp [finishWorkflowRun], ?_⟩
    intro msg sf hcontra
    exact absurd hcontra (by simp)

theorem startWorkflow_terminal_idle_witness :
    (jsTrim "go" ≠ "" ∧ ({} : OfficeState).running = false)
    ∧ (startWorkflow
        { user := false, proxy := fun _ => { ok := false, status := 500, body := none } }
        "go" {}).phase = .idle :=
  ⟨⟨by decide, rfl⟩,
   (startWorkflow_terminal_idle
     { user := false, proxy := fun _ => { ok := false, status := 500, body := none } }
     "go" {} (by decide) rfl).1⟩

/-! ## C6 infrastructure: offline-mode evaluation

With no signed-in user every `getProxyAuthToken` call returns `""`, so each
phase helper takes its offline branch.  The lemmas below reduce those
branches and track the observation fields (`llmCalls`, `phaseTrace`,
`localReports`, `workflowAttachmentFile`) through every state transformer of
the workflow body. -/
theorem getProxyAuthToken_offline {env : Env} (huser : env.user = false) :
    getProxyAuthToken env = "" := by
  simp [getProxyAuthToken, huser]

theorem appendLog_llmCalls (ph : WorkflowPhase) (m : String) (s : OfficeState) :
    (appendLog ph m s).llmCalls = s.llmCalls := rfl

theorem appendLog_phaseTrace (ph : WorkflowPhase) (m : String) (s : OfficeState) :
    (appendLog ph m s).phaseTrace = s.phaseTrace := rfl

theorem appendLog_localReports (ph : WorkflowPhase) (m : String) (s : OfficeState) :
    (appendLog ph m s).localReports = s.localReports := rfl

theorem appendLog_attachment (ph : WorkflowPhase) (m : String) (s : OfficeState) :
    (appendLog ph m s).workflowAttachmentFile = s.workflowAttachmentFile := rfl

theorem appendMeetingTurnS_llmCalls (tid sid : String) (room : Room)
    (spId spName text : String) (src : TurnSource) (s : OfficeState) :
    (appendMeetingTurnS tid sid room spId spName text src s).llmCalls
      = s.llmCalls := rfl

theorem appendMeetingTurnS_phaseTrace (tid sid : String) (room : Room)
    (spId spName text : String) (src : TurnSource) (s : OfficeState) :
    (appendMeetingTurnS tid sid room spId spName text src s).phaseTrace
      = s.phaseTrace := rfl

theorem appendMeetingTurnS_localReports (tid sid : String) (room : Room)
    (spId spName text : String) (src : TurnSource) (s : OfficeState) :
    (appendMeetingTurnS tid sid room spId spName text src s).localReports
      = s.localReports := rfl

theorem appendMeetingTurnS_attachment (tid sid : String) (room : Room)
    (spId spName text : String) (src : TurnSource) (s : OfficeState) :
    (appendMeetingTurnS tid sid room spId spName text src s).workflowAttachmentFile
      = s.workflowAttachmentFile := rfl

theorem setPhase_llmCalls (p : WorkflowPhase) (s : OfficeState) :
    (setPhase p s).llmCalls = s.llmCalls := rfl

theorem setPhase_phaseTrace (p : WorkflowPhase) (s : OfficeState) :
    (setPhase p s).phaseTrace = s.phaseTrace ++ [p] := rfl

theorem setPhase_localReports (p : WorkflowPhase) (s : OfficeState) :
    (setPhase p s).localReports = s.localReports := rfl

theorem setPhase_attachment (p : WorkflowPhase) (s : OfficeState) :
    (setPhase p s).workflowAttachmentFile = s.workflowAttachmentFile := rfl

theorem upsertActionPlanS_llmCalls (memberId plan : String) (src : PlanSource)
    (tid : String) (s : OfficeState) :
    (upsertActionPlanS memberId plan src tid s).llmCalls = s.llmCalls := by
  unfold upsertActionPlanS; split <;> rfl

theorem upsertActionPlanS_phaseTrace (memberId plan : String) (src : PlanSource)
    (tid : String) (s : OfficeState) :
    (upsertActionPlanS memberId plan src tid s).phaseTrace = s.phaseTrace := by
  unfold upsertActionPlanS; split <;> rfl

theorem upsertActionPlanS_localReports (memberId plan : String) (src : PlanSource)
    (tid : String) (s : OfficeState) :
    (upsertActionPlanS memberId plan src tid s).localReports = s.localReports := by
  unfold upsertActionPlanS; split <;> rfl

theorem upsertActionPlanS_attachment (memberId plan : String) (src : PlanSource)
    (tid : String) (s : OfficeState) :
    (upsertActionPlanS memberId plan src tid s).workflowAttachmentFile
      = s.workflowAttachmentFile := by
  unfold upsertActionPlanS; split <;> rfl

theorem updateThreadTitle_llmCalls (tid title : String) (s : OfficeState) :
    (updateThreadTitle tid title s).llmCalls = s.llmCalls := rfl

theorem updateThreadTitle_phaseTrace (tid title : String) (s : OfficeState) :
    (updateThreadTitle tid title s).phaseTrace = s.phaseTrace := rfl

theorem updateThreadTitle_localReports (tid title : String) (s : OfficeState) :
    (updateThreadTitle tid title s).localReports = s.localReports := rfl

theorem addGovernanceAlert_llmCalls (src msg : String) (st : AlertStatus)
    (s : OfficeState) : (addGovernanceAlert src msg st s).llmCalls = s.llmCalls := rfl

theorem addGovernanceAlert_phaseTrace (src msg : String) (st : AlertStatus)
    (s : OfficeState) :
    (addGovernanceAlert src msg st s).phaseTrace = s.phaseTrace := rfl

theorem addGovernanceAlert_localReports (src msg : String) (st : AlertStatus)
    (s : OfficeState) :
    (addGovernanceAlert src msg st s).localReports = s.localReports := rfl

theorem ite_state_llmCalls (c : Prop) [Decidable c] (a b : OfficeState) :
    (if c then a else b).llmCalls = if c then a.llmCalls else b.llmCalls := by
  split <;> rfl

theorem ite_state_phaseTrace (c : Prop) [Decidable c] (a b : OfficeState) :
    (if c then a else b).phaseTrace = if c then a.phaseTrace else b.phaseTrace := by
  split <;> rfl

theorem ite_state_localReports (c : Prop) [Decidable c] (a b : OfficeState) :
    (if c then a else b).localReports
      = if c then a.localReports else b.localReports := by
  split <;> rfl

theorem ite_pair_snd {α β : Type} (c : Prop) [Decidable c] (a b : α × β) :
    (if c then a else b).2 = if c then a.2 else b.2 := by
  split <;> rfl

theorem runBrainstorm_offline {env : Env} (huser : env.user = false)
    (t : String) (s : OfficeState) :
    runBrainstorm env t s
      = (.ok { strategy := "오프라인 전략: ATTENDANT-TAN이 PM/PO/DEV/UX/QA/LEGAL 중심으로 3단계 실행안을 구성하고 CEO에 단계별 보고한다.",
               participants := DEFAULT_COLLABORATION_TEAM,
               handoff := "협업실에서 세부 실행안 작성 후 담당자별 산출물을 CEO 좌석으로 전달" }, s) := by
  simp [runBrainstorm, getProxyAuthToken_offline huser]

theorem runPoPmManagementPlan_offline {env : Env} (huser : env.user = false)
    (t st : String) (participants : List String) (s : OfficeState) :
    runPoPmManagementPlan env t st participants s
      = (.ok ("PO-TAN 배정안(오프라인): " ++ jsJoin ", " participants
                ++ " 기준으로 고객가치/리스크 기반 우선순위를 지정",
              "PM-TAN 일정안(오프라인): 담당자별 D1~D5 마일스톤과 의존성 관리"), s) := by
  simp [runPoPmManagementPlan, getProxyAuthToken_offline huser]

theorem uploadFileAsset_offline {env : Env} (huser : env.user = false)
    (f : WorkFile) (cat : String) (s : OfficeState) :
    uploadFileAsset env f cat s
      = (.ok { id := s.clock, name := f.name,
               url := "blob:local-" ++ toString s.clock,
               mimeType := jsOr f.mimeType "application/octet-stream",
               size := f.size, uploadedAt := s.clock, source := .local },
         { s with clock := s.clock + 1 }) := by
  simp [uploadFileAsset, huser]

theorem runFinalReport_offline {env : Env} (huser : env.user = false)
    (t st : String) (notes : List CollaborationNote)
    (plans : List ActionPlanItem) (s : OfficeState) :
    runFinalReport env t st notes plans s
      = (.ok (jsJoin "\n"
          (["[CEO 최종 보고서 - 오프라인 모드]",
            "지시 사항: " ++ t,
            "전략: " ++ st,
            "실행 핵심:"]
           ++ notes.map (fun item => "- " ++ item.memberId ++ ": " ++ item.note)
           ++ ["", "TAN별 액션플랜:",
               jsOr (jsJoin "\n\n"
                 (plans.enum.map (fun iplan =>
                   toString (iplan.1 + 1) ++ ". " ++ iplan.2.memberId ++ " ("
                     ++ iplan.2.memberName ++ ")\n" ++ iplan.2.plan))) "- 없음"])),
         s) := by
  simp [runFinalReport, getProxyAuthToken_offline huser]

theorem persistReport_offline_llmCalls {env : Env} (huser : env.user = false)
    (title body : String) (parts : List String) (assets : List FileAsset)
    (ca : Nat) (tid : String) (s : OfficeState) :
    (persistReport env title body parts assets ca tid s).llmCalls
      = s.llmCalls := by
  simp [persistReport, huser]

theorem persistReport_offline_phaseTrace {env : Env} (huser : env.user = false)
    (title body : String) (parts : List String) (assets : List FileAsset)
    (ca : Nat) (tid : String) (s : OfficeState) :
    (persistReport env title body parts assets ca tid s).phaseTrace
      = s.phaseTrace := by
  simp [persistReport, huser]

theorem persistReport_offline_localReports {env : Env} (huser : env.user = false)
    (title body : String) (parts : List String) (assets : List FileAsset)
    (ca : Nat) (tid : String) (s : OfficeState) :
    (persistReport env title body parts assets ca tid s).localReports
      = ({ id := s.clock, threadId := tid, title := title, body := body,
           participants := parts, createdAt := ca, assets := assets,
           source := .local } : ReportItem) :: s.localReports := by
  simp [persistReport, huser]

theorem persistOfficeMessage_offline_llmCalls {env : Env}
    (huser : env.user = false) (sid sname srole : String) (kind : MessageKind)
    (text : String) (targets : List String) (atts : List FileAsset)
    (tid : String) (s : OfficeState) :
    (persistOfficeMessage env sid sname srole kind text targets atts tid s).llmCalls
      = s.llmCalls := by
  simp [persistOfficeMessage, huser]

theorem persistOfficeMessage_offline_phaseTrace {env : Env}
    (huser : env.user = false) (sid sname srole : String) (kind : MessageKind)
    (text : String) (targets : List String) (atts : List FileAsset)
    (tid : String) (s : OfficeState) :
    (persistOfficeMessage env sid sname srole kind text targets atts tid s).phaseTrace
      = s.phaseTrace := by
  simp [persistOfficeMessage, huser]

theorem persistOfficeMessage_offline_localReports {env : Env}
    (huser : env.user = false) (sid sname srole : String) (kind : MessageKind)
    (text : String) (targets : List String) (atts : List FileAsset)
    (tid : String) (s : OfficeState) :
    (persistOfficeMessage env sid sname srole kind text targets atts tid s).localReports
      = s.localReports := by
  simp [persistOfficeMessage, huser]

theorem collabTurnNote_offline_snd (env : Env) (t st mc : String)
    (member : CouncilMember) (m pd : String) (s : OfficeState) :
    (collabTurnNote env t st mc "" member m pd s).2 = s := by
  simp [collabTurnNote]

theorem collabAfterTurn_offline_fields (env : Env) (t st mc sid : String)
    (member : CouncilMember) (m pd : String) (s : OfficeState) :
    (collabAfterTurn env t st mc sid "" member m pd s).llmCalls = s.llmCalls
    ∧ (collabAfterTurn env t st mc sid "" member m pd s).phaseTrace = s.phaseTrace
    ∧ (collabAfterTurn env t st mc sid "" member m pd s).localReports = s.localReports
    ∧ (collabAfterTurn env t st mc sid "" member m pd s).workflowAttachmentFile
        = s.workflowAttachmentFile := by
  unfold collabAfterTurn
  dsimp only
  rw [collabTurnNote_offline_snd]
  exact ⟨rfl, rfl, rfl, rfl⟩

theorem collabLoop_cons_none (env : Env) (t st mc sid auth m : String)
    (rest : List String) (pd : String) (s : OfficeState)
    (hm : getMember m = none) :
    collabLoop env t st mc sid auth (m :: rest) pd s
      = collabLoop env t st mc sid auth rest pd s := by
  rw [collabLoop, hm]

theorem collabLoop_offline_fields (env : Env) (t st mc sid : String)
    (l : List String) (pd : String) (s : OfficeState) :
    (collabLoop env t st mc sid "" l pd s).2.2.llmCalls = s.llmCalls
    ∧ (collabLoop env t st mc sid "" l pd s).2.2.phaseTrace = s.phaseTrace
    ∧ (collabLoop env t st mc sid "" l pd s).2.2.localReports = s.localReports
    ∧ (collabLoop env t st mc sid "" l pd s).2.2.workflowAttachmentFile
        = s.workflowAttachmentFile := by
  induction l generalizing pd s with
  | nil => rw [collabLoop_nil]; exact ⟨rfl, rfl, rfl, rfl⟩
  | cons m rest ih =>
    cases hm : getMember m with
    | none => rw [collabLoop_cons_none env t st mc sid "" m rest pd s hm]; exact ih pd s
    | some member =>
      rw [collabLoop_cons_some env t st mc sid "" m member rest pd s hm]
      dsimp only
      obtain ⟨ha1, ha2, ha3, ha4⟩ :=
        collabAfterTurn_offline_fields env t st mc sid member m pd s
      obtain ⟨hh1, hh2, hh3, hh4⟩ := ih
        (pd ++ member.id ++ ": "
          ++ (collabTurnNote env t st mc "" member m pd s).1 ++ "\n\n")
        (collabAfterTurn env t st mc sid "" member m pd s)
      exact ⟨hh1.trans ha1, hh2.trans ha2, hh3.trans ha3, hh4.trans ha4⟩

theorem collabLoop_offline_llmCalls (env : Env) (t st mc sid : String)
    (l : List String) (pd : String) (s : OfficeState) :
    (collabLoop env t st mc sid "" l pd s).2.2.llmCalls = s.llmCalls :=
  (collabLoop_offline_fields env t st mc sid l pd s).1

theorem collabLoop_offline_phaseTrace (env : Env) (t st mc sid : String)
    (l : List String) (pd : String) (s : OfficeState) :
    (collabLoop env t st mc sid "" l pd s).2.2.phaseTrace = s.phaseTrace :=
  (collabLoop_offline_fields env t st mc sid l pd s).2.1

theorem collabLoop_offline_localReports (env : Env) (t st mc sid : String)
    (l : List String) (pd : String) (s : OfficeState) :
    (collabLoop env t st mc sid "" l pd s).2.2.localReports = s.localReports :=
  (collabLoop_offline_fields env t st mc sid l pd s).2.2.1

theorem collabLoop_offline_attachment (env : Env) (t st mc sid : String)
    (l : List String) (pd : String) (s : OfficeState) :
    (collabLoop env t st mc sid "" l pd s).2.2.workflowAttachmentFile
      = s.workflowAttachmentFile :=
  (collabLoop_offline_fields env t st mc sid l pd s).2.2.2

theorem foldlUpsert_fields (l : List CollaborationNote) (s : OfficeState) :
    (List.foldl (fun s item =>
        upsertActionPlanS item.memberId item.note .workflow s.activeThreadId s)
      s l).llmCalls = s.llmCalls
    ∧ (List.foldl (fun s item =>
        upsertActionPlanS item.memberId item.note .workflow s.activeThreadId s)
      s l).phaseTrace = s.phaseTrace
    ∧ (List.foldl (fun s item =>
        upsertActionPlanS item.memberId item.note .workflow s.activeThreadId s)
      s l).localReports = s.localReports
    ∧ (List.foldl (fun s item =>
        upsertActionPlanS item.memberId item.note .workflow s.activeThreadId s)
      s l).workflowAttachmentFile = s.workflowAttachmentFile := by
  induction l generalizing s with
  | nil => exact ⟨rfl, rfl, rfl, rfl⟩
  | cons item rest ih =>
    rw [List.foldl_cons]
    obtain ⟨h1, h2, h3, h4⟩ := ih
      (upsertActionPlanS item.memberId item.note .workflow s.activeThreadId s)
    exact ⟨h1.trans (upsertActionPlanS_llmCalls _ _ _ _ _),
           h2.trans (upsertActionPlanS_phaseTrace _ _ _ _ _),
           h3.trans (upsertActionPlanS_localReports _ _ _ _ _),
           h4.trans (upsertActionPlanS_attachment _ _ _ _ _)⟩

theorem foldlUpsert_llmCalls (l : List CollaborationNote) (s : OfficeState) :
    (List.foldl (fun s item =>
        upsertActionPlanS item.memberId item.note .workflow s.activeThreadId s)
      s l).llmCalls = s.llmCalls := (foldlUpsert_fields l s).1

theorem foldlUpsert_phaseTrace (l : List CollaborationNote) (s : OfficeState) :
    (List.foldl (fun s item =>
        upsertActionPlanS item.memberId item.note .workflow s.activeThreadId s)
      s l).phaseTrace = s.phaseTrace := (foldlUpsert_fields l s).2.1

theorem foldlUpsert_localReports (l : List CollaborationNote) (s : OfficeState) :
    (List.foldl (fun s item =>
        upsertActionPlanS item.memberId item.note .workflow s.activeThreadId s)
      s l).localReports = s.localReports := (foldlUpsert_fields l s).2.2.1

theorem foldlUpsert_attachment (l : List CollaborationNote) (s : OfficeState) :
    (List.foldl (fun s item =>
        upsertActionPlanS item.memberId item.note .workflow s.activeThreadId s)
      s l).workflowAttachmentFile = s.workflowAttachmentFile :=
  (foldlUpsert_fields l s).2.2.2

theorem mkReportPlansNotes_fields (tid : String) (l : List CollaborationNote)
    (s : OfficeState) :
    (mkReportPlansNotes tid l s).2.llmCalls = s.llmCalls
    ∧ (mkReportPlansNotes tid l s).2.phaseTrace = s.phaseTrace
    ∧ (mkReportPlansNotes tid l s).2.localReports = s.localReports := by
  induction l generalizing s with
  | nil => exact ⟨rfl, rfl, rfl⟩
  | cons item rest ih =>
    rw [mkReportPlansNotes]
    dsimp only
    exact ih { s with clock := s.clock + 1 }

theorem mkReportPlans_llmCalls (tid po pm : String)
    (notes : List CollaborationNote) (s : OfficeState) :
    (mkReportPlans tid po pm notes s).2.llmCalls = s.llmCalls := by
  unfold mkReportPlans
  dsimp only
  exact (mkReportPlansNotes_fields tid notes _).1

theorem mkReportPlans_phaseTrace (tid po pm : String)
    (notes : List CollaborationNote) (s : OfficeState) :
    (mkReportPlans tid po pm notes s).2.phaseTrace = s.phaseTrace := by
  unfold mkReportPlans
  dsimp only
  exact (mkReportPlansNotes_fields tid notes _).2.1

theorem mkReportPlans_localReports (tid po pm : String)
    (notes : List CollaborationNote) (s : OfficeState) :
    (mkReportPlans tid po pm notes s).2.localReports = s.localReports := by
  unfold mkReportPlans
  dsimp only
  exact (mkReportPlansNotes_fields tid notes _).2.2

theorem governanceCheckerStep_offline_fields {env : Env}
    (huser : env.user = false) (ctx checker : String) (s : OfficeState) :
    (governanceCheckerStep env ctx checker s).llmCalls = s.llmCalls
    ∧ (governanceCheckerStep env ctx checker s).phaseTrace = s.phaseTrace
    ∧ (governanceCheckerStep env ctx checker s).localReports = s.localReports := by
  unfold governanceCheckerStep runOfficerSingleReply
  cases hm : getMember checker with
  | none =>
    dsimp only
    exact ⟨rfl, rfl, rfl⟩
  | some member =>
    rw [getProxyAuthToken_offline huser]
    dsimp only
    exact ⟨rfl, rfl, rfl⟩

theorem runGovernanceWatch_offline_llmCalls {env : Env}
    (huser : env.user = false) (ctx : String) (s : OfficeState) :
    (runGovernanceWatch env ctx s).llmCalls = s.llmCalls := by
  unfold runGovernanceWatch
  exact ((governanceCheckerStep_offline_fields huser ctx "HR-TAN" _).1).trans
    ((governanceCheckerStep_offline_fields huser ctx "LEGAL-TAN" s).1)

theorem runGovernanceWatch_offline_phaseTrace {env : Env}
    (huser : env.user = false) (ctx : String) (s : OfficeState) :
    (runGovernanceWatch env ctx s).phaseTrace = s.phaseTrace := by
  unfold runGovernanceWatch
  exact ((governanceCheckerStep_offline_fields huser ctx "HR-TAN" _).2.1).trans
    ((governanceCheckerStep_offline_fields huser ctx "LEGAL-TAN" s).2.1)

theorem runGovernanceWatch_offline_localReports {env : Env}
    (huser : env.user = false) (ctx : String) (s : OfficeState) :
    (runGovernanceWatch env ctx s).localReports = s.localReports := by
  unfold runGovernanceWatch
  exact ((governanceCheckerStep_offline_fields huser ctx "HR-TAN" _).2.2).trans
    ((governanceCheckerStep_offline_fields huser ctx "LEGAL-TAN" s).2.2)

theorem strContains_jsJoin_second (sep a b c : String) (xs : List String)
    (t : String) (h : strContains b t) :
    strContains (jsJoin sep (a :: b :: c :: xs)) t := by
  rw [jsJoin_cons_cons, jsJoin_cons_cons]
  exact strContains_append_left _
    (strContains_append_right _ (strContains_append_right _ h))

theorem runManagementAndCollab_offline_fields {env : Env}
    (huser : env.user = false) (t st : String) (cm : List String)
    (po pm : String) (s : OfficeState) :
    (runManagementAndCollab env t st cm po pm s).2.llmCalls = s.llmCalls
    ∧ (runManagementAndCollab env t st cm po pm s).2.phaseTrace
        = s.phaseTrace ++ [WorkflowPhase.execution]
    ∧ (runManagementAndCollab env t st cm po pm s).2.localReports
        = s.localReports := by
  simp only [runManagementAndCollab, runCollaboration,
    getProxyAuthToken_offline huser]
  refine ⟨?_, ?_, ?_⟩
  · simp only [appendLog_llmCalls, setPhase_llmCalls, foldlUpsert_llmCalls,
      collabLoop_offline_llmCalls, appendMeetingTurnS_llmCalls,
      upsertActionPlanS_llmCalls]
  · simp only [appendLog_phaseTrace, setPhase_phaseTrace, foldlUpsert_phaseTrace,
      collabLoop_offline_phaseTrace, appendMeetingTurnS_phaseTrace,
      upsertActionPlanS_phaseTrace]
  · simp only [appendLog_localReports, setPhase_localReports,
      foldlUpsert_localReports, collabLoop_offline_localReports,
      appendMeetingTurnS_localReports, upsertActionPlanS_localReports]

theorem runManagementAndCollab_offline_llmCalls {env : Env}
    (huser : env.user = false) (t st : String) (cm : List String)
    (po pm : String) (s : OfficeState) :
    (runManagementAndCollab env t st cm po pm s).2.llmCalls = s.llmCalls :=
  (runManagementAndCollab_offline_fields huser t st cm po pm s).1

theorem runManagementAndCollab_offline_phaseTrace {env : Env}
    (huser : env.user = false) (t st : String) (cm : List String)
    (po pm : String) (s : OfficeState) :
    (runManagementAndCollab env t st cm po pm s).2.phaseTrace
      = s.phaseTrace ++ [WorkflowPhase.execution] :=
  (runManagementAndCollab_offline_fields huser t st cm po pm s).2.1

theorem runManagementAndCollab_offline_localReports {env : Env}
    (huser : env.user = false) (t st : String) (cm : List String)
    (po pm : String) (s : OfficeState) :
    (runManagementAndCollab env t st cm po pm s).2.localReports
      = s.localReports :=
  (runManagementAndCollab_offline_fields huser t st cm po pm s).2.2

theorem runAttachmentInbound_offline_fields {env : Env}
    (huser : env.user = false) (s : OfficeState) :
    (runAttachmentInbound env s).2.llmCalls = s.llmCalls
    ∧ (runAttachmentInbound env s).2.phaseTrace = s.phaseTrace
    ∧ (runAttachmentInbound env s).2.localReports = s.localReports := by
  unfold runAttachmentInbound
  rcases hf : s.workflowAttachmentFile with _ | f
  · exact ⟨rfl, rfl, rfl⟩
  · simp only [uploadFileAsset_offline huser]
    exact ⟨rfl, rfl, rfl⟩

theorem runAttachmentInbound_offline_llmCalls {env : Env}
    (huser : env.user = false) (s : OfficeState) :
    (runAttachmentInbound env s).2.llmCalls = s.llmCalls :=
  (runAttachmentInbound_offline_fields huser s).1

theorem runAttachmentInbound_offline_phaseTrace {env : Env}
    (huser : env.user = false) (s : OfficeState) :
    (runAttachmentInbound env s).2.phaseTrace = s.phaseTrace :=
  (runAttachmentInbound_offline_fields huser s).2.1

theorem runAttachmentInbound_offline_localReports {env : Env}
    (huser : env.user = false) (s : OfficeState) :
    (runAttachmentInbound env s).2.localReports = s.localReports :=
  (runAttachmentInbound_offline_fields huser s).2.2

theorem deliverFinalReport_offline_llmCalls {env : Env}
    (huser : env.user = false) (t st : String) (cm : List String)
    (cs : CollaborationSessionResult) (ia : Option FileAsset) (txt : String)
    (s : OfficeState) :
    (deliverFinalReport env t st cm cs ia txt s).llmCalls = s.llmCalls := by
  simp only [deliverFinalReport, uploadTextAsset, uploadFileAsset_offline huser,
    appendLog_llmCalls, runGovernanceWatch_offline_llmCalls huser,
    persistOfficeMessage_offline_llmCalls huser,
    persistReport_offline_llmCalls huser, ite_pair_snd, ite_state_llmCalls,
    ite_self]

theorem deliverFinalReport_offline_phaseTrace {env : Env}
    (huser : env.user = false) (t st : String) (cm : List String)
    (cs : CollaborationSessionResult) (ia : Option FileAsset) (txt : String)
    (s : OfficeState) :
    (deliverFinalReport env t st cm cs ia txt s).phaseTrace = s.phaseTrace := by
  simp only [deliverFinalReport, uploadTextAsset, uploadFileAsset_offline huser,
    appendLog_phaseTrace, runGovernanceWatch_offline_phaseTrace huser,
    persistOfficeMessage_offline_phaseTrace huser,
    persistReport_offline_phaseTrace huser, ite_pair_snd, ite_state_phaseTrace,
    ite_self]

theorem deliverFinalReport_offline_localReports {env : Env}
    (huser : env.user = false) (t st : String) (cm : List String)
    (cs : CollaborationSessionResult) (ia : Option FileAsset) (txt : String)
    (s : OfficeState) :
    ∃ r, (deliverFinalReport env t st cm cs ia txt s).localReports
        = r :: s.localReports
      ∧ r.body = txt := by
  simp only [deliverFinalReport, uploadTextAsset, uploadFileAsset_offline huser,
    appendLog_localReports, runGovernanceWatch_offline_localReports huser,
    persistOfficeMessage_offline_localReports huser,
    persistReport_offline_localReports huser, ite_pair_snd,
    ite_state_localReports, ite_self]
  exact ⟨_, rfl, rfl⟩

theorem runWorkflowBody_offline (env : Env) (t : String) (s : OfficeState)
    (huser : env.user = false) :
    ∃ sOut, runWorkflowBody env t s = Except.ok sOut
      ∧ sOut.llmCalls = s.llmCalls
      ∧ sOut.phaseTrace = s.phaseTrace
          ++ [WorkflowPhase.brainstorming, WorkflowPhase.collaboration,
              WorkflowPhase.execution, WorkflowPhase.reporting]
      ∧ ∃ r, sOut.localReports = r :: s.localReports ∧ strContains r.body t := by
  unfold runWorkflowBody
  dsimp only
  rw [runBrainstorm_offline huser]
  dsimp only
  rw [runPoPmManagementPlan_offline huser]
  dsimp only
  rw [runFinalReport_offline huser]
  dsimp only
  refine ⟨_, rfl, ?_, ?_, ?_⟩
  · simp only [deliverFinalReport_offline_llmCalls huser, mkReportPlans_llmCalls,
      setPhase_llmCalls, runAttachmentInbound_offline_llmCalls huser,
      runManagementAndCollab_offline_llmCalls huser, appendLog_llmCalls,
      appendMeetingTurnS_llmCalls]
  · simp only [deliverFinalReport_offline_phaseTrace huser,
      mkReportPlans_phaseTrace, setPhase_phaseTrace,
      runAttachmentInbound_offline_phaseTrace huser,
      runManagementAndCollab_offline_phaseTrace huser, appendLog_phaseTrace,
      appendMeetingTurnS_phaseTrace, List.append_assoc, List.cons_append,
      List.nil_append, List.singleton_append]
  · obtain ⟨r, hr, hbody⟩ := @deliverFinalReport_offline_localReports
      env huser _ _ _ _ _ _ _
    refine ⟨r, ?_, ?_⟩
    · rw [hr]
      simp only [mkReportPlans_localReports, setPhase_localReports,
        runAttachmentInbound_offline_localReports huser,
        runManagementAndCollab_offline_localReports huser,
        appendLog_localReports, appendMeetingTurnS_localReports]
    · rw [hbody]
      simp only [List.cons_append, List.nil_append]
      exact strContains_jsJoin_second _ _ _ _ _ _
        (strContains_append_left "지시 사항: " (strContains_self t))

/-- C6: with no credential available (no signed-in user, so every
`getProxyAuthToken` is empty and all offline fallbacks are taken), an
accepted `startWorkflow` on a non-empty directive completes through all five
phases — the recorded phase trace extends by brainstorming, collaboration,
execution, reporting and back to idle — makes no dispatch-layer generation
call (the proxy call counter is unchanged), and persists to the local report
store a final report whose body contains the literal (trimmed) directive
text. -/
theorem startWorkflow_offline_deterministic (env : Env) (task : String)
    (s : OfficeState) (huser : env.user = false) (htask : jsTrim task ≠ "")
    (hrun : s.running = false) :
    (startWorkflow env task s).phase = WorkflowPhase.idle
    ∧ (startWorkflow env task s).llmCalls = s.llmCalls
    ∧ (startWorkflow env task s).phaseTrace
        = s.phaseTrace
            ++ [WorkflowPhase.brainstorming, WorkflowPhase.collaboration,
                WorkflowPhase.execution, WorkflowPhase.reporting,
                WorkflowPhase.idle]
    ∧ ∃ r, (startWorkflow env task s).localReports = r :: s.localReports
        ∧ strContains r.body (jsTrim task) := by
  unfold startWorkflow
  rw [if_neg htask, if_neg (by simp [hrun])]
  dsimp only
  obtain ⟨sOut, hb, hllm, hpt, r, hlr, hcont⟩ :=
    runWorkflowBody_offline env (jsTrim task)
      (updateThreadTitle s.activeThreadId
        (if (jsTrim task).length > 36 then
          jsTrim ⟨(jsTrim task).data.take 36⟩ ++ "..."
         else jsTrim task)
        { s with workflowError := "", running := true }) huser
  rw [hb]
  dsimp only
  refine ⟨rfl, ?_, ?_, ?_⟩
  · exact hllm
  · show sOut.phaseTrace ++ [WorkflowPhase.idle] = _
    rw [hpt]
    simp [updateThreadTitle]
  · exact ⟨r, hlr, hcont⟩

theorem startWorkflow_offline_deterministic_witness :
    (({ user := false, proxy := fun _ => { ok := false, status := 500, body := none } } : Env).user = false
      ∧ jsTrim "베타 출시" ≠ "" ∧ ({} : OfficeState).running = false)
    ∧ ((startWorkflow
          { user := false, proxy := fun _ => { ok := false, status := 500, body := none } }
          "베타 출시" {}).phase = WorkflowPhase.idle
        ∧ (startWorkflow
            { user := false, proxy := fun _ => { ok := false, status := 500, body := none } }
            "베타 출시" {}).llmCalls = ({} : OfficeState).llmCalls
        ∧ (startWorkflow
            { user := false, proxy := fun _ => { ok := false, status := 500, body := none } }
            "베타 출시" {}).phaseTrace
            = ({} : OfficeState).phaseTrace
                ++ [WorkflowPhase.brainstorming, WorkflowPhase.collaboration,
                    WorkflowPhase.execution, WorkflowPhase.reporting,
                    WorkflowPhase.idle]
        ∧ ∃ r, (startWorkflow
              { user := false, proxy := fun _ => { ok := false, status := 500, body := none } }
              "베타 출시" {}).localReports = r :: ({} : OfficeState).localReports
            ∧ strContains r.body (jsTrim "베타 출시")) :=
  ⟨⟨rfl, by decide, rfl⟩,
   startWorkflow_offline_deterministic
     { user := false, proxy := fun _ => { ok := false, status := 500, body := none } }
     "베타 출시" {} rfl (by decide) rfl⟩
